import Mathlib

/-!
# Watch-resource facades of the API server (`juju2/apiserver/watcher.go`)

A shallow embedding of the watcher facades: the authorization gate evaluated by every
constructor, the lookup of the watcher resource in the per-connection registry, and the
`Next` operation of every typed variant.

Conventions of the embedding.

* A Go `error` result is an `Option Error` (`none` is `nil`); a constructor returning
  `(facade.Facade, error)` returns an `Except Error _`.
* Code with effects is written in state-passing style over a `World`, which holds the
  registry of the connection and the log of the calls made on the external collaborators.
* A facade holds a reference to its watcher; here it holds the watcher's state, and `Next`
  returns the facade with the state left by the receive.

The definitions of three smaller files follow those of the facades, each in the namespace of
its package: the storage command (`Storage`), the Rackspace provider (`Rackspace`) and the LXD
instance (`Lxd`). The theorems come after all the definitions.
-/

namespace Apiserver

/-! ## Errors -/

/-- Error values met in `watcher.go`: the three sentinels of `apiserver/common`
(`ErrPerm`, `ErrUnknownWatcher`, `ErrStoppedWatcher`) and the values built with
`github.com/juju/errors` (`errors.New`, a not-found error, a not-implemented error,
`errors.Annotate`, `errors.Trace`). -/
inductive Error where
  | ErrPerm
  | ErrUnknownWatcher
  | ErrStoppedWatcher
  | New (msg : String)
  | NotFound (msg : String)
  | NotImplemented (msg : String)
  | Annotate (previous : Error) (msg : String)
  | Trace (previous : Error)
  deriving DecidableEq, Repr

/-- Modelled from the spec: the message of an error (the method `Error()`); the sentinels are
declared in `apiserver/common`, which is not among the sources, an annotation reads
`message: previous message`, and a trace adds nothing to the message. -/
def Error.Message : Error → String
  | .ErrPerm => "permission denied"
  | .ErrUnknownWatcher => "unknown watcher id"
  | .ErrStoppedWatcher => "watcher has been stopped"
  | .New msg => msg
  | .NotFound msg => msg
  | .NotImplemented msg => msg
  | .Annotate previous msg => msg ++ ": " ++ previous.Message
  | .Trace previous => previous.Message

/-- The underlying cause of an error (`errors.Cause`): annotations and traces are unwrapped. -/
def Error.Cause : Error → Error
  | .Annotate previous _ => previous.Cause
  | .Trace previous => previous.Cause
  | e => e

/-- The test `errors.IsNotFound`: the cause is a not-found error. -/
def IsNotFound (err : Option Error) : Bool :=
  match err with
  | some e =>
    match e.Cause with
    | .NotFound _ => true
    | _ => false
  | none => false

/-- The test `errors.IsNotImplemented`: the cause is a not-implemented error. -/
def IsNotImplemented (err : Option Error) : Bool :=
  match err with
  | some e =>
    match e.Cause with
    | .NotImplemented _ => true
    | _ => false
  | none => false

/-! ## Payloads and wire results (package `params`) -/

/-- Modelled from the spec: `params.UnitSettings`, the settings version of one unit. -/
structure UnitSettings where
  Version : Int
  deriving DecidableEq, Repr

/-- Modelled from the spec: `params.RelationUnitsChange`, the structured delta of one relation
(units joined or changed with their settings, units departed). -/
structure RelationUnitsChange where
  Changed : List (String × UnitSettings) := []
  Departed : List String := []
  deriving DecidableEq, Repr

/-- Modelled from the spec: `params.RemoteRelationsChange`, one snapshot of the relations of a
remote application. -/
structure RemoteRelationsChange where
  ChangedRelations : List String := []
  RemovedRelations : List Int := []
  deriving DecidableEq, Repr

/-- Modelled from the spec: `params.RemoteApplicationChange`, one snapshot of a remote
application. -/
structure RemoteApplicationChange where
  ApplicationTag : String := ""
  Life : String := ""
  Relations : RemoteRelationsChange := {}
  deriving DecidableEq, Repr

/-- Modelled from the spec: `params.MachineStorageId`, a machine and storage pair. -/
structure MachineStorageId where
  MachineId : String
  StorageId : String
  deriving DecidableEq, Repr

/-- Modelled from the spec: `multiwatcher.Delta`, one entity delta of the aggregator. -/
structure Delta where
  Removed : Bool
  Entity : String
  deriving DecidableEq, Repr

/-- Wire result `params.AllWatcherNextResults`; `{}` is its zero value. -/
structure AllWatcherNextResults where
  Deltas : List Delta := []
  deriving DecidableEq, Repr

/-- Wire result `params.StringsWatchResult` (the field set by `Next`); `{}` is its zero value. -/
structure StringsWatchResult where
  Changes : List String := []
  deriving DecidableEq, Repr

/-- Wire result `params.RelationUnitsWatchResult`; `{}` is its zero value. -/
structure RelationUnitsWatchResult where
  Changes : RelationUnitsChange := {}
  deriving DecidableEq, Repr

/-- Wire result `params.RemoteApplicationWatchResult`: `Change` is a pointer, `none` is `nil`. -/
structure RemoteApplicationWatchResult where
  Change : Option RemoteApplicationChange := none
  deriving DecidableEq, Repr

/-- Wire result `params.RemoteRelationsWatchResult`: `Change` is a pointer, `none` is `nil`. -/
structure RemoteRelationsWatchResult where
  Change : Option RemoteRelationsChange := none
  deriving DecidableEq, Repr

/-- Wire result `params.MachineStorageIdsWatchResult`; `{}` is its zero value. -/
structure MachineStorageIdsWatchResult where
  Changes : List MachineStorageId := []
  deriving DecidableEq, Repr

/-- Wire result `params.EntitiesWatchResult`; `{}` is its zero value. -/
structure EntitiesWatchResult where
  Changes : List String := []
  deriving DecidableEq, Repr

/-- Wire result `params.MigrationStatus`; `{}` is its zero value. -/
structure MigrationStatus where
  MigrationId : String := ""
  Attempt : Int := 0
  Phase : String := ""
  SourceAPIAddrs : List String := []
  SourceCACert : String := ""
  TargetAPIAddrs : List String := []
  TargetCACert : String := ""
  deriving DecidableEq, Repr

/-! ## Watchers (package `state`) -/

/-- Modelled from the spec: a watcher of package `state` (`Changes() <-chan α`, `Err() error`).
The channel is the queue of the values it still delivers before it is closed, oldest first;
`err` is the stored error, `received` counts the receive operations made on the channel. -/
structure Watcher (α : Type) where
  pending : List α
  err : Option Error
  received : Nat := 0
  deriving DecidableEq, Repr

/-- The receive `v, ok := <-w.Changes()`: `some v` when a value is delivered, `none` when the
channel is closed; a closed channel stays closed. -/
def Watcher.Changes {α : Type} (w : Watcher α) : Option α × Watcher α :=
  match w.pending with
  | [] => (none, { w with received := w.received + 1 })
  | v :: rest => (some v, { w with pending := rest, received := w.received + 1 })

/-- A `state.NotifyWatcher`: the channel carries bare signals (`struct{}`). -/
abbrev NotifyWatcher := Watcher Unit

/-- A `state.StringsWatcher`: the channel carries lists of strings. -/
abbrev StringsWatcher := Watcher (List String)

/-- A `state.RelationUnitsWatcher`. -/
abbrev RelationUnitsWatcher := Watcher RelationUnitsChange

/-- A `state.RemoteApplicationWatcher`. -/
abbrev RemoteApplicationWatcher := Watcher RemoteApplicationChange

/-- A `state.RemoteRelationsWatcher`. -/
abbrev RemoteRelationsWatcher := Watcher RemoteRelationsChange

/-- The interface `EntitiesWatcher` of `watcher.go`: a `state.StringsWatcher` with the method
`MapChanges`. -/
structure EntitiesWatcher where
  toStringsWatcher : StringsWatcher
  MapChanges : List String → Except Error (List String)

/-- The stored error of a watcher (`Err()`). -/
def Watcher.Err {α : Type} (w : Watcher α) : Option Error := w.err

/-- Modelled from the spec: a `*state.Multiwatcher`, the external aggregator; `outcomes` are the
results its successive `Next` calls return, oldest first, and `last` is what `Next` returns
once they are used up. -/
structure Multiwatcher where
  outcomes : List (List Delta × Option Error)
  last : List Delta × Option Error
  deriving DecidableEq, Repr

/-- Modelled from the spec: `Multiwatcher.Next`, the next result of the aggregator. -/
def Multiwatcher.Next (w : Multiwatcher) : (List Delta × Option Error) × Multiwatcher :=
  match w.outcomes with
  | [] => (w.last, w)
  | r :: rest => (r, { w with outcomes := rest })

/-! ## Migration backend (packages `state`, `core/migration`, `network`, `controller`) -/

/-- Modelled from the spec: the phases of a migration (`migration.Phase`): `NONE` and the
phases of the life of an attempt. -/
inductive Phase where
  | UNKNOWN | NONE | QUIESCE | IMPORT | VALIDATION | SUCCESS | LOGTRANSFER
  | REAP | REAPFAILED | DONE | ABORT | ABORTDONE
  deriving DecidableEq, Repr

/-- Modelled from the spec: the string form of a phase (`Phase.String`, declared in
`core/migration`, which is not among the sources): the spec writes `none` for `NONE` and names
the phases of an attempt in capitals (`REAP`). -/
def Phase.String : Phase → String
  | .UNKNOWN => "UNKNOWN"
  | .NONE => "none"
  | .QUIESCE => "QUIESCE"
  | .IMPORT => "IMPORT"
  | .VALIDATION => "VALIDATION"
  | .SUCCESS => "SUCCESS"
  | .LOGTRANSFER => "LOGTRANSFER"
  | .REAP => "REAP"
  | .REAPFAILED => "REAPFAILED"
  | .DONE => "DONE"
  | .ABORT => "ABORT"
  | .ABORTDONE => "ABORTDONE"

/-- Modelled from the spec: `network.HostPort`, an address and a port. -/
structure HostPort where
  Value : String
  Port : Nat
  deriving DecidableEq, Repr

/-- Modelled from the spec: the address string of a host-port (`HostPort.String`), the host
and the port joined by a colon. -/
def HostPort.String (hp : HostPort) : String :=
  hp.Value ++ ":" ++ toString hp.Port

/-- Modelled from the spec: the target connection data of a migration
(`migration.TargetInfo`): addresses and CA certificate. -/
structure TargetInfo where
  Addrs : List String
  CACert : String
  deriving DecidableEq, Repr

/-- Modelled from the spec: a `state.ModelMigration`, given by what its methods `Id`,
`Attempt`, `Phase` and `TargetInfo` return. -/
structure ModelMigration where
  Id : String
  Attempt : Int
  Phase : Except Error Phase
  TargetInfo : Except Error TargetInfo

/-- Modelled from the spec: a `controller.Config`, of which only `CACert() (string, bool)` is
used: `none` when no CA certificate is configured. -/
structure Config where
  CACert : Option String
  deriving DecidableEq, Repr

/-- The interface `migrationBackend` of `watcher.go`, given by what its three methods
return. -/
structure migrationBackend where
  LatestMigration : Except Error ModelMigration
  APIHostPorts : Except Error (List (List HostPort))
  ControllerConfig : Except Error Config

/-- The shim `getMigrationBackend`: the state itself is the backend. -/
def getMigrationBackend (st : migrationBackend) : migrationBackend := st

/-! ## Registry, authorizer and context (package `facade`) -/

/-- A value kept in the registry, by its dynamic type: `resources.Get(id)` returns an interface
value, which the constructors narrow with a type assertion. `other` is a resource that is
none of the watcher types. -/
inductive Resource where
  | multiwatcher (w : Multiwatcher)
  | notify (w : NotifyWatcher)
  | strings (w : StringsWatcher)
  | relationUnits (w : RelationUnitsWatcher)
  | remoteApplication (w : RemoteApplicationWatcher)
  | remoteRelations (w : RemoteRelationsWatcher)
  | entities (w : EntitiesWatcher)
  | other (name : String)

/-- A call made on an external collaborator, as recorded in the log of the world. -/
inductive Call where
  | ResourcesGet (id : String)
  | ResourcesStop (id : String)
  | Dispose
  | parser (arg : List String)
  | MapChanges (arg : List String)
  | MultiwatcherNext
  | LatestMigration
  | Phase
  | APIHostPorts
  | ControllerConfig
  | TargetInfo
  deriving DecidableEq, Repr

/-- The state outside the facades: the registry of the connection (`facade.Resources`,
Modelled from the spec: a keyed store of resources) and the log of the calls made so far,
oldest first. -/
structure World where
  resources : List (String × Resource)
  calls : List Call
  stopError : String → Option Error := fun _ => none

/-- Record a call in the log. -/
def World.record (s : World) (c : Call) : World :=
  { s with calls := s.calls ++ [c] }

/-- Modelled from the spec: `resources.Get(id)`, the resource registered under `id` or `none`
(a nil interface) when there is none; the call is recorded. -/
def World.Get (s : World) (id : String) : Option Resource × World :=
  (s.resources.lookup id, s.record (Call.ResourcesGet id))

/-- Modelled from the spec: `resources.Count()`, the number of registered resources. -/
def World.Count (s : World) : Nat := s.resources.length

/-- Modelled from the spec: `resources.Stop(id)`: the call is recorded, the registry no longer
holds `id` afterwards, and the error returned is the one the registry reports for that id
(the field `stopError` of the world, which the facade layer takes as given). -/
def World.Stop (s : World) (id : String) : Option Error × World :=
  (s.stopError id,
    { s with resources := s.resources.filter (fun entry => entry.1 != id),
             calls := s.calls ++ [Call.ResourcesStop id] })

/-- A `facade.Authorizer`, given by the answers of the four role predicates used here. -/
structure Authorizer where
  AuthMachineAgent : Bool
  AuthUnitAgent : Bool
  AuthClient : Bool
  AuthController : Bool
  deriving DecidableEq, Repr

/-- A `facade.Context`: `ID()`, `Auth()`, `Dispose()` and `State()`; `Resources()` is the
registry of the world. -/
structure Context where
  ID : String
  Auth : Authorizer
  Dispose : World → World
  State : migrationBackend

/-! ## Type assertions on a resource -/

/-- The assertion `resources.Get(id).(*state.Multiwatcher)`. -/
def asMultiwatcher : Option Resource → Option Multiwatcher
  | some (.multiwatcher w) => some w
  | _ => none

/-- The assertion `resources.Get(id).(state.NotifyWatcher)`. -/
def asNotifyWatcher : Option Resource → Option NotifyWatcher
  | some (.notify w) => some w
  | _ => none

/-- The assertion `resources.Get(id).(state.StringsWatcher)`: an interface assertion, which a
value of any type with the methods of the interface passes, an `EntitiesWatcher` included. -/
def asStringsWatcher : Option Resource → Option StringsWatcher
  | some (.strings w) => some w
  | some (.entities w) => some w.toStringsWatcher
  | _ => none

/-- The assertion `resources.Get(id).(state.RelationUnitsWatcher)`. -/
def asRelationUnitsWatcher : Option Resource → Option RelationUnitsWatcher
  | some (.relationUnits w) => some w
  | _ => none

/-- The assertion `resources.Get(id).(state.RemoteApplicationWatcher)`. -/
def asRemoteApplicationWatcher : Option Resource → Option RemoteApplicationWatcher
  | some (.remoteApplication w) => some w
  | _ => none

/-- The assertion `resources.Get(id).(state.RemoteRelationsWatcher)`. -/
def asRemoteRelationsWatcher : Option Resource → Option RemoteRelationsWatcher
  | some (.remoteRelations w) => some w
  | _ => none

/-- The assertion `resources.Get(id).(EntitiesWatcher)`. -/
def asEntitiesWatcher : Option Resource → Option EntitiesWatcher
  | some (.entities w) => some w
  | _ => none

/-! ## Facades and their constructors -/

/-- The parsers of package `storagecommon`, which is not among the sources: they are taken
as given. -/
structure Storagecommon where
  ParseVolumeAttachmentIds : List String → Except Error (List MachineStorageId)
  ParseFilesystemAttachmentIds : List String → Except Error (List MachineStorageId)

/-- The struct `watcherCommon`: the id and the dispose callback; its field `resources` is the
handle of the registry, which here is the registry of the world. -/
structure watcherCommon where
  id : String
  dispose : World → World

/-- The function `newWatcherCommon`. -/
def newWatcherCommon (context : Context) : watcherCommon :=
  { id := context.ID, dispose := context.Dispose }

/-- The method `watcherCommon.Stop`: the call of the dispose callback is recorded and the
callback applied, then the registry is asked to stop the id. -/
def watcherCommon.Stop (w : watcherCommon) (s : World) : Option Error × World :=
  let s := w.dispose (s.record Call.Dispose)
  s.Stop w.id

/-- The struct `SrvAllWatcher`. -/
structure SrvAllWatcher where
  watcherCommon : watcherCommon
  watcher : Multiwatcher

/-- The struct `srvNotifyWatcher`. -/
structure srvNotifyWatcher where
  watcherCommon : watcherCommon
  watcher : NotifyWatcher

/-- The struct `srvStringsWatcher`. -/
structure srvStringsWatcher where
  watcherCommon : watcherCommon
  watcher : StringsWatcher

/-- The struct `srvRelationUnitsWatcher`. -/
structure srvRelationUnitsWatcher where
  watcherCommon : watcherCommon
  watcher : RelationUnitsWatcher

/-- The struct `srvRemoteApplicationWatcher`. -/
structure srvRemoteApplicationWatcher where
  watcherCommon : watcherCommon
  watcher : RemoteApplicationWatcher

/-- The struct `srvRemoteRelationsWatcher`. -/
structure srvRemoteRelationsWatcher where
  watcherCommon : watcherCommon
  watcher : RemoteRelationsWatcher

/-- The struct `srvMachineStorageIdsWatcher`. -/
structure srvMachineStorageIdsWatcher where
  watcherCommon : watcherCommon
  watcher : StringsWatcher
  parser : List String → Except Error (List MachineStorageId)

/-- The struct `srvEntitiesWatcher`. -/
structure srvEntitiesWatcher where
  watcherCommon : watcherCommon
  watcher : EntitiesWatcher

/-- The struct `srvMigrationStatusWatcher`. -/
structure srvMigrationStatusWatcher where
  watcherCommon : watcherCommon
  watcher : NotifyWatcher
  st : migrationBackend

/-- The function `isAgent`. -/
def isAgent (auth : Authorizer) : Bool :=
  auth.AuthMachineAgent || auth.AuthUnitAgent

/-- The constructor `NewAllWatcher`. -/
def NewAllWatcher (context : Context) (s : World) : Except Error SrvAllWatcher × World :=
  let id := context.ID
  let auth := context.Auth
  if !auth.AuthClient then
    (.error .ErrPerm, s)
  else
    let (r, s) := s.Get id
    match asMultiwatcher r with
    | none => (.error .ErrUnknownWatcher, s)
    | some watcher =>
      (.ok { watcherCommon := newWatcherCommon context, watcher := watcher }, s)

/-- The constructor `newNotifyWatcher`. -/
def newNotifyWatcher (context : Context) (s : World) : Except Error srvNotifyWatcher × World :=
  let id := context.ID
  let auth := context.Auth
  if !isAgent auth then
    (.error .ErrPerm, s)
  else
    let (r, s) := s.Get id
    match asNotifyWatcher r with
    | none => (.error .ErrUnknownWatcher, s)
    | some watcher =>
      (.ok { watcherCommon := newWatcherCommon context, watcher := watcher }, s)

/-- The constructor `newStringsWatcher`. -/
def newStringsWatcher (context : Context) (s : World) : Except Error srvStringsWatcher × World :=
  let id := context.ID
  let auth := context.Auth
  if !isAgent auth then
    (.error .ErrPerm, s)
  else
    let (r, s) := s.Get id
    match asStringsWatcher r with
    | none => (.error .ErrUnknownWatcher, s)
    | some watcher =>
      (.ok { watcherCommon := newWatcherCommon context, watcher := watcher }, s)

/-- The constructor `newRelationUnitsWatcher`. -/
def newRelationUnitsWatcher (context : Context) (s : World) :
    Except Error srvRelationUnitsWatcher × World :=
  let id := context.ID
  let auth := context.Auth
  if !isAgent auth then
    (.error .ErrPerm, s)
  else
    let (r, s) := s.Get id
    match asRelationUnitsWatcher r with
    | none => (.error .ErrUnknownWatcher, s)
    | some watcher =>
      (.ok { watcherCommon := newWatcherCommon context, watcher := watcher }, s)

/-- The constructor `newRemoteApplicationWatcher`. -/
def newRemoteApplicationWatcher (context : Context) (s : World) :
    Except Error srvRemoteApplicationWatcher × World :=
  let id := context.ID
  let auth := context.Auth
  if !auth.AuthController then
    (.error .ErrPerm, s)
  else
    let (r, s) := s.Get id
    match asRemoteApplicationWatcher r with
    | none => (.error .ErrUnknownWatcher, s)
    | some watcher =>
      (.ok { watcherCommon := newWatcherCommon context, watcher := watcher }, s)

/-- The constructor `newRemoteRelationsWatcher`. -/
def newRemoteRelationsWatcher (context : Context) (s : World) :
    Except Error srvRemoteRelationsWatcher × World :=
  let id := context.ID
  let auth := context.Auth
  if !auth.AuthController then
    (.error .ErrPerm, s)
  else
    let (r, s) := s.Get id
    match asRemoteRelationsWatcher r with
    | none => (.error .ErrUnknownWatcher, s)
    | some watcher =>
      (.ok { watcherCommon := newWatcherCommon context, watcher := watcher }, s)

/-- The constructor `newMachineStorageIdsWatcher`. -/
def newMachineStorageIdsWatcher (context : Context)
    (parser : List String → Except Error (List MachineStorageId)) (s : World) :
    Except Error srvMachineStorageIdsWatcher × World :=
  let id := context.ID
  let auth := context.Auth
  if !isAgent auth then
    (.error .ErrPerm, s)
  else
    let (r, s) := s.Get id
    match asStringsWatcher r with
    | none => (.error .ErrUnknownWatcher, s)
    | some watcher =>
      (.ok { watcherCommon := newWatcherCommon context, watcher := watcher, parser := parser }, s)

/-- The constructor `newVolumeAttachmentsWatcher`. -/
def newVolumeAttachmentsWatcher (storagecommon : Storagecommon) (context : Context) (s : World) :
    Except Error srvMachineStorageIdsWatcher × World :=
  newMachineStorageIdsWatcher context storagecommon.ParseVolumeAttachmentIds s

/-- The constructor `newFilesystemAttachmentsWatcher`. -/
def newFilesystemAttachmentsWatcher (storagecommon : Storagecommon) (context : Context)
    (s : World) : Except Error srvMachineStorageIdsWatcher × World :=
  newMachineStorageIdsWatcher context storagecommon.ParseFilesystemAttachmentIds s

/-- The constructor `newEntitiesWatcher`. -/
def newEntitiesWatcher (context : Context) (s : World) :
    Except Error srvEntitiesWatcher × World :=
  let id := context.ID
  let auth := context.Auth
  if !isAgent auth then
    (.error .ErrPerm, s)
  else
    let (r, s) := s.Get id
    match asEntitiesWatcher r with
    | none => (.error .ErrUnknownWatcher, s)
    | some watcher =>
      (.ok { watcherCommon := newWatcherCommon context, watcher := watcher }, s)

/-- The constructor `newMigrationStatusWatcher`. -/
def newMigrationStatusWatcher (context : Context) (s : World) :
    Except Error srvMigrationStatusWatcher × World :=
  let id := context.ID
  let auth := context.Auth
  let st := context.State
  if !isAgent auth then
    (.error .ErrPerm, s)
  else
    let (r, s) := s.Get id
    match asNotifyWatcher r with
    | none => (.error .ErrUnknownWatcher, s)
    | some w =>
      (.ok { watcherCommon := newWatcherCommon context, watcher := w,
             st := getMigrationBackend st }, s)

/-! ## The operation `Next` of every variant -/

/-- The method `SrvAllWatcher.Next`. -/
def SrvAllWatcher.Next (aw : SrvAllWatcher) (s : World) :
    (AllWatcherNextResults × Option Error) × SrvAllWatcher × World :=
  let ((deltas, err), watcher) := aw.watcher.Next
  (({ Deltas := deltas }, err), { aw with watcher := watcher }, s.record Call.MultiwatcherNext)

/-- The method `srvNotifyWatcher.Next`. -/
def srvNotifyWatcher.Next (w : srvNotifyWatcher) (s : World) :
    Option Error × srvNotifyWatcher × World :=
  match w.watcher.Changes with
  | (some _, watcher) => (none, { w with watcher := watcher }, s)
  | (none, watcher) =>
    let err := watcher.Err
    let err := match err with
      | none => Error.ErrStoppedWatcher
      | some err => err
    (some err, { w with watcher := watcher }, s)

/-- The method `srvStringsWatcher.Next`. -/
def srvStringsWatcher.Next (w : srvStringsWatcher) (s : World) :
    (StringsWatchResult × Option Error) × srvStringsWatcher × World :=
  match w.watcher.Changes with
  | (some changes, watcher) => (({ Changes := changes }, none), { w with watcher := watcher }, s)
  | (none, watcher) =>
    let err := watcher.Err
    let err := match err with
      | none => Error.ErrStoppedWatcher
      | some err => err
    (({}, some err), { w with watcher := watcher }, s)

/-- The method `srvRelationUnitsWatcher.Next`. -/
def srvRelationUnitsWatcher.Next (w : srvRelationUnitsWatcher) (s : World) :
    (RelationUnitsWatchResult × Option Error) × srvRelationUnitsWatcher × World :=
  match w.watcher.Changes with
  | (some changes, watcher) => (({ Changes := changes }, none), { w with watcher := watcher }, s)
  | (none, watcher) =>
    let err := watcher.Err
    let err := match err with
      | none => Error.ErrStoppedWatcher
      | some err => err
    (({}, some err), { w with watcher := watcher }, s)

/-- The method `srvRemoteApplicationWatcher.Next`. -/
def srvRemoteApplicationWatcher.Next (w : srvRemoteApplicationWatcher) (s : World) :
    (RemoteApplicationWatchResult × Option Error) × srvRemoteApplicationWatcher × World :=
  match w.watcher.Changes with
  | (some change, watcher) =>
    (({ Change := some change }, none), { w with watcher := watcher }, s)
  | (none, watcher) =>
    let err := watcher.Err
    let err := match err with
      | none => Error.ErrStoppedWatcher
      | some err => err
    (({}, some err), { w with watcher := watcher }, s)

/-- The method `srvRemoteRelationsWatcher.Next`. -/
def srvRemoteRelationsWatcher.Next (w : srvRemoteRelationsWatcher) (s : World) :
    (RemoteRelationsWatchResult × Option Error) × srvRemoteRelationsWatcher × World :=
  match w.watcher.Changes with
  | (some changes, watcher) =>
    (({ Change := some changes }, none), { w with watcher := watcher }, s)
  | (none, watcher) =>
    let err := watcher.Err
    let err := match err with
      | none => Error.ErrStoppedWatcher
      | some err => err
    (({}, some err), { w with watcher := watcher }, s)

/-- The method `srvMachineStorageIdsWatcher.Next`. -/
def srvMachineStorageIdsWatcher.Next (w : srvMachineStorageIdsWatcher) (s : World) :
    (MachineStorageIdsWatchResult × Option Error) × srvMachineStorageIdsWatcher × World :=
  match w.watcher.Changes with
  | (some stringChanges, watcher) =>
    let s := s.record (Call.parser stringChanges)
    match w.parser stringChanges with
    | .error err => (({}, some err), { w with watcher := watcher }, s)
    | .ok changes => (({ Changes := changes }, none), { w with watcher := watcher }, s)
  | (none, watcher) =>
    let err := watcher.Err
    let err := match err with
      | none => Error.ErrStoppedWatcher
      | some err => err
    (({}, some err), { w with watcher := watcher }, s)

/-- The method `srvEntitiesWatcher.Next`. -/
def srvEntitiesWatcher.Next (w : srvEntitiesWatcher) (s : World) :
    (EntitiesWatchResult × Option Error) × srvEntitiesWatcher × World :=
  match w.watcher.toStringsWatcher.Changes with
  | (some changes, watcher) =>
    let s := s.record (Call.MapChanges changes)
    let w1 : srvEntitiesWatcher :=
      { w with watcher := { w.watcher with toStringsWatcher := watcher } }
    match w.watcher.MapChanges changes with
    | .error err => (({}, some (Error.Annotate err "cannot map changes")), w1, s)
    | .ok mapped => (({ Changes := mapped }, none), w1, s)
  | (none, watcher) =>
    let err := watcher.Err
    let err := match err with
      | none => Error.ErrStoppedWatcher
      | some err => err
    (({}, some err), { w with watcher := { w.watcher with toStringsWatcher := watcher } }, s)

/-- The method `srvMigrationStatusWatcher.getLocalHostPorts`. -/
def srvMigrationStatusWatcher.getLocalHostPorts (w : srvMigrationStatusWatcher) (s : World) :
    (List String × Option Error) × World :=
  let s := s.record Call.APIHostPorts
  match w.st.APIHostPorts with
  | .error err => (([], some (Error.Trace err)), s)
  | .ok hostports =>
    let out := hostports.foldl
      (fun out sect => sect.foldl (fun out hostport => out ++ [hostport.String]) out) []
    ((out, none), s)

/-- The shim `getControllerCACert`. -/
def getControllerCACert (st : migrationBackend) (s : World) : (String × Option Error) × World :=
  let s := s.record Call.ControllerConfig
  match st.ControllerConfig with
  | .error err => (("", some (Error.Trace err)), s)
  | .ok cfg =>
    match cfg.CACert with
    | none => (("", some (Error.New "missing CA cert for controller model")), s)
    | some cacert => ((cacert, none), s)

/-- The method `srvMigrationStatusWatcher.Next`. -/
def srvMigrationStatusWatcher.Next (w : srvMigrationStatusWatcher) (s : World) :
    (MigrationStatus × Option Error) × srvMigrationStatusWatcher × World :=
  let empty : MigrationStatus := {}
  match w.watcher.Changes with
  | (none, watcher) =>
    let err := watcher.Err
    let err := match err with
      | none => Error.ErrStoppedWatcher
      | some err => err
    ((empty, some err), { w with watcher := watcher }, s)
  | (some _, watcher) =>
    let w1 : srvMigrationStatusWatcher := { w with watcher := watcher }
    let s := s.record Call.LatestMigration
    match w.st.LatestMigration with
    | .error err =>
      if IsNotFound (some err) then
        (({ Phase := Phase.NONE.String }, none), w1, s)
      else
        ((empty, some (Error.Annotate err "migration lookup")), w1, s)
    | .ok mig =>
      let s := s.record Call.Phase
      match mig.Phase with
      | .error err => ((empty, some (Error.Annotate err "retrieving migration phase")), w1, s)
      | .ok phase =>
        match w.getLocalHostPorts s with
        | ((_, some err), s) =>
          ((empty, some (Error.Annotate err "retrieving source addresses")), w1, s)
        | ((sourceAddrs, none), s) =>
          match getControllerCACert w.st s with
          | ((_, some err), s) =>
            ((empty, some (Error.Annotate err "retrieving source CA cert")), w1, s)
          | ((sourceCACert, none), s) =>
            let s := s.record Call.TargetInfo
            match mig.TargetInfo with
            | .error err =>
              ((empty, some (Error.Annotate err "retrieving target info")), w1, s)
            | .ok target =>
              (({ MigrationId := mig.Id,
                  Attempt := mig.Attempt,
                  Phase := phase.String,
                  SourceAPIAddrs := sourceAddrs,
                  SourceCACert := sourceCACert,
                  TargetAPIAddrs := target.Addrs,
                  TargetCACert := target.CACert }, none), w1, s)

/-! ## The registered facades (`init`) -/

/-- The names under which `init` registers the facades. -/
inductive FacadeName where
  | AllWatcher
  | AllModelWatcher
  | NotifyWatcher
  | StringsWatcher
  | RemoteApplicationWatcher
  | RemoteRelationsWatcher
  | RelationUnitsWatcher
  | VolumeAttachmentsWatcher
  | FilesystemAttachmentsWatcher
  | EntityWatcher
  | MigrationStatusWatcher
  deriving DecidableEq, Repr

/-- A `facade.Facade` built by one of the constructors: a pointer to one of the facade
structs. -/
inductive Facade where
  | SrvAllWatcher (f : SrvAllWatcher)
  | srvNotifyWatcher (f : srvNotifyWatcher)
  | srvStringsWatcher (f : srvStringsWatcher)
  | srvRemoteApplicationWatcher (f : srvRemoteApplicationWatcher)
  | srvRemoteRelationsWatcher (f : srvRemoteRelationsWatcher)
  | srvRelationUnitsWatcher (f : srvRelationUnitsWatcher)
  | srvMachineStorageIdsWatcher (f : srvMachineStorageIdsWatcher)
  | srvEntitiesWatcher (f : srvEntitiesWatcher)
  | srvMigrationStatusWatcher (f : srvMigrationStatusWatcher)

/-- Return the result of a constructor as a `facade.Facade`. -/
def asFacade {α : Type} (mk : α → Facade) (r : Except Error α × World) :
    Except Error Facade × World :=
  match r with
  | (.ok f, s) => (.ok (mk f), s)
  | (.error err, s) => (.error err, s)

/-- The registration table of `init`: the constructor registered under each name. -/
def factory (storagecommon : Storagecommon) (name : FacadeName) (context : Context) (s : World) :
    Except Error Facade × World :=
  match name with
  | .AllWatcher => asFacade Facade.SrvAllWatcher (NewAllWatcher context s)
  | .AllModelWatcher => asFacade Facade.SrvAllWatcher (NewAllWatcher context s)
  | .NotifyWatcher => asFacade Facade.srvNotifyWatcher (newNotifyWatcher context s)
  | .StringsWatcher => asFacade Facade.srvStringsWatcher (newStringsWatcher context s)
  | .RemoteApplicationWatcher =>
    asFacade Facade.srvRemoteApplicationWatcher (newRemoteApplicationWatcher context s)
  | .RemoteRelationsWatcher =>
    asFacade Facade.srvRemoteRelationsWatcher (newRemoteRelationsWatcher context s)
  | .RelationUnitsWatcher =>
    asFacade Facade.srvRelationUnitsWatcher (newRelationUnitsWatcher context s)
  | .VolumeAttachmentsWatcher =>
    asFacade Facade.srvMachineStorageIdsWatcher (newVolumeAttachmentsWatcher storagecommon context s)
  | .FilesystemAttachmentsWatcher =>
    asFacade Facade.srvMachineStorageIdsWatcher
      (newFilesystemAttachmentsWatcher storagecommon context s)
  | .EntityWatcher => asFacade Facade.srvEntitiesWatcher (newEntitiesWatcher context s)
  | .MigrationStatusWatcher =>
    asFacade Facade.srvMigrationStatusWatcher (newMigrationStatusWatcher context s)

/-! ## The statements of the specification -/

/-- The role predicate which the specification requires of each registered facade (the column
`Auth` of its registration table): client, agent (machine agent or unit agent) or
controller. -/
def specRequiredAuth (name : FacadeName) (auth : Authorizer) : Bool :=
  match name with
  | .AllWatcher => auth.AuthClient
  | .AllModelWatcher => auth.AuthClient
  | .NotifyWatcher => auth.AuthMachineAgent || auth.AuthUnitAgent
  | .StringsWatcher => auth.AuthMachineAgent || auth.AuthUnitAgent
  | .RemoteApplicationWatcher => auth.AuthController
  | .RemoteRelationsWatcher => auth.AuthController
  | .RelationUnitsWatcher => auth.AuthMachineAgent || auth.AuthUnitAgent
  | .VolumeAttachmentsWatcher => auth.AuthMachineAgent || auth.AuthUnitAgent
  | .FilesystemAttachmentsWatcher => auth.AuthMachineAgent || auth.AuthUnitAgent
  | .EntityWatcher => auth.AuthMachineAgent || auth.AuthUnitAgent
  | .MigrationStatusWatcher => auth.AuthMachineAgent || auth.AuthUnitAgent

/-- The watcher types of the specification's registration table (column `Resource type`). -/
inductive WatcherType where
  | allDeltas
  | notifySource
  | stringsSource
  | remoteApplicationSource
  | remoteRelationsSource
  | relationUnitsSource
  | stringsSourceWithMapping
  deriving DecidableEq, Repr

/-- The resource type which the specification expects of each registered facade. -/
def specExpectedType : FacadeName → WatcherType
  | .AllWatcher => .allDeltas
  | .AllModelWatcher => .allDeltas
  | .NotifyWatcher => .notifySource
  | .StringsWatcher => .stringsSource
  | .RemoteApplicationWatcher => .remoteApplicationSource
  | .RemoteRelationsWatcher => .remoteRelationsSource
  | .RelationUnitsWatcher => .relationUnitsSource
  | .VolumeAttachmentsWatcher => .stringsSource
  | .FilesystemAttachmentsWatcher => .stringsSource
  | .EntityWatcher => .stringsSourceWithMapping
  | .MigrationStatusWatcher => .notifySource

/-- Whether a resource is of a watcher type: it is the aggregator, or it has the change channel
of that type; a strings source with a mapping function is a strings source too. -/
def Resource.hasType : Resource → WatcherType → Bool
  | .multiwatcher _, .allDeltas => true
  | .notify _, .notifySource => true
  | .strings _, .stringsSource => true
  | .entities _, .stringsSource => true
  | .entities _, .stringsSourceWithMapping => true
  | .remoteApplication _, .remoteApplicationSource => true
  | .remoteRelations _, .remoteRelationsSource => true
  | .relationUnits _, .relationUnitsSource => true
  | _, _ => false

/-- The id to which a facade is bound. -/
def Facade.id : Facade → String
  | .SrvAllWatcher f => f.watcherCommon.id
  | .srvNotifyWatcher f => f.watcherCommon.id
  | .srvStringsWatcher f => f.watcherCommon.id
  | .srvRemoteApplicationWatcher f => f.watcherCommon.id
  | .srvRemoteRelationsWatcher f => f.watcherCommon.id
  | .srvRelationUnitsWatcher f => f.watcherCommon.id
  | .srvMachineStorageIdsWatcher f => f.watcherCommon.id
  | .srvEntitiesWatcher f => f.watcherCommon.id
  | .srvMigrationStatusWatcher f => f.watcherCommon.id

/-- The embedded `watcherCommon` of a facade. -/
def Facade.watcherCommon : Facade → watcherCommon
  | .SrvAllWatcher f => f.watcherCommon
  | .srvNotifyWatcher f => f.watcherCommon
  | .srvStringsWatcher f => f.watcherCommon
  | .srvRemoteApplicationWatcher f => f.watcherCommon
  | .srvRemoteRelationsWatcher f => f.watcherCommon
  | .srvRelationUnitsWatcher f => f.watcherCommon
  | .srvMachineStorageIdsWatcher f => f.watcherCommon
  | .srvEntitiesWatcher f => f.watcherCommon
  | .srvMigrationStatusWatcher f => f.watcherCommon

/-- The method `Stop` of a facade, which every facade struct has from its embedded
`watcherCommon`. -/
def Facade.Stop (f : Facade) (s : World) : Option Error × World :=
  f.watcherCommon.Stop s

/-- The result of `Next` of a facade, by variant; the notify variant returns only an error. -/
inductive NextResult where
  | AllWatcher (r : AllWatcherNextResults)
  | Notify
  | Strings (r : StringsWatchResult)
  | RemoteApplication (r : RemoteApplicationWatchResult)
  | RemoteRelations (r : RemoteRelationsWatchResult)
  | RelationUnits (r : RelationUnitsWatchResult)
  | MachineStorageIds (r : MachineStorageIdsWatchResult)
  | Entities (r : EntitiesWatchResult)
  | MigrationStatus (r : MigrationStatus)
  deriving DecidableEq, Repr

/-- The method `Next` of a facade, whichever struct it is. -/
def Facade.Next (f : Facade) (s : World) : (NextResult × Option Error) × Facade × World :=
  match f with
  | .SrvAllWatcher w =>
    match w.Next s with
    | ((r, err), w1, s1) => ((.AllWatcher r, err), .SrvAllWatcher w1, s1)
  | .srvNotifyWatcher w =>
    match w.Next s with
    | (err, w1, s1) => ((.Notify, err), .srvNotifyWatcher w1, s1)
  | .srvStringsWatcher w =>
    match w.Next s with
    | ((r, err), w1, s1) => ((.Strings r, err), .srvStringsWatcher w1, s1)
  | .srvRemoteApplicationWatcher w =>
    match w.Next s with
    | ((r, err), w1, s1) => ((.RemoteApplication r, err), .srvRemoteApplicationWatcher w1, s1)
  | .srvRemoteRelationsWatcher w =>
    match w.Next s with
    | ((r, err), w1, s1) => ((.RemoteRelations r, err), .srvRemoteRelationsWatcher w1, s1)
  | .srvRelationUnitsWatcher w =>
    match w.Next s with
    | ((r, err), w1, s1) => ((.RelationUnits r, err), .srvRelationUnitsWatcher w1, s1)
  | .srvMachineStorageIdsWatcher w =>
    match w.Next s with
    | ((r, err), w1, s1) => ((.MachineStorageIds r, err), .srvMachineStorageIdsWatcher w1, s1)
  | .srvEntitiesWatcher w =>
    match w.Next s with
    | ((r, err), w1, s1) => ((.Entities r, err), .srvEntitiesWatcher w1, s1)
  | .srvMigrationStatusWatcher w =>
    match w.Next s with
    | ((r, err), w1, s1) => ((.MigrationStatus r, err), .srvMigrationStatusWatcher w1, s1)

/-- The queries `srvMigrationStatusWatcher.Next` makes on a delivered signal, in its order:
`LatestMigration`, `Phase`, `APIHostPorts` (in `getLocalHostPorts`), `ControllerConfig` (in
`getControllerCACert`) and `TargetInfo`. -/
def migrationQueries : List Call :=
  [Call.LatestMigration, Call.Phase, Call.APIHostPorts, Call.ControllerConfig, Call.TargetInfo]

/-- The facade holds the resource `r`: its field `watcher` is `r` itself, seen through the
watcher type of the facade, with its channel as it stands in `r`. -/
def Facade.holds (f : Facade) (r : Resource) : Prop :=
  match f with
  | .SrvAllWatcher f => r = .multiwatcher f.watcher
  | .srvNotifyWatcher f => r = .notify f.watcher
  | .srvStringsWatcher f =>
    r = .strings f.watcher ∨ ∃ w : EntitiesWatcher, r = .entities w ∧ w.toStringsWatcher = f.watcher
  | .srvRemoteApplicationWatcher f => r = .remoteApplication f.watcher
  | .srvRemoteRelationsWatcher f => r = .remoteRelations f.watcher
  | .srvRelationUnitsWatcher f => r = .relationUnits f.watcher
  | .srvMachineStorageIdsWatcher f =>
    r = .strings f.watcher ∨ ∃ w : EntitiesWatcher, r = .entities w ∧ w.toStringsWatcher = f.watcher
  | .srvEntitiesWatcher f => r = .entities f.watcher
  | .srvMigrationStatusWatcher f => r = .notify f.watcher

/-- The terminal error of the specification: the stored error of the watcher if there is one,
else the generic stopped-watcher condition. -/
def terminalError (stored : Option Error) : Error :=
  match stored with
  | some err => err
  | none => Error.ErrStoppedWatcher

/-- Sequential calls of an operation `next` on one facade: before each call the backing source
acts on the facade's watcher (one entry of `envs` per call, `id` when it does nothing); the
results are listed in call order, with the facade and the world left by the last call. -/
def callsAmid {F R : Type} (next : F → World → R × F × World) :
    List (F → F) → F → World → List R × F × World
  | [], w, s => ([], w, s)
  | env :: envs, w, s =>
    match next (env w) s with
    | (r, w1, s1) =>
      match callsAmid next envs w1 s1 with
      | (rs, w2, s2) => (r :: rs, w2, s2)

/-- The first `n` sequential calls of `next`, `calls next n`, nothing else acting on the
facade. -/
def calls {F R : Type} (next : F → World → R × F × World) (n : Nat) (w : F) (s : World) :
    List R × F × World :=
  callsAmid next (List.replicate n id) w s

/-! ## Concrete objects for the examples -/

/-- A backend with no recorded migration. -/
def sampleBackend : migrationBackend :=
  { LatestMigration := .error (.NotFound "migration not found"),
    APIHostPorts := .ok [],
    ControllerConfig := .ok { CACert := some "CERT" } }

/-- A context with the given id and authorizer, whose dispose callback does nothing. -/
def sampleContext (id : String) (auth : Authorizer) : Context :=
  { ID := id, Auth := auth, Dispose := fun s => s, State := sampleBackend }

/-- An authorizer that is a unit agent and nothing else. -/
def unitAgent : Authorizer :=
  { AuthMachineAgent := false, AuthUnitAgent := true, AuthClient := false,
    AuthController := false }

/-- An authorizer that is a machine agent and nothing else. -/
def machineAgent : Authorizer :=
  { AuthMachineAgent := true, AuthUnitAgent := false, AuthClient := false,
    AuthController := false }

/-- An authorizer that is a client and nothing else. -/
def clientOnly : Authorizer :=
  { AuthMachineAgent := false, AuthUnitAgent := false, AuthClient := true,
    AuthController := false }

/-- An authorizer that is a controller and nothing else. -/
def controllerOnly : Authorizer :=
  { AuthMachineAgent := false, AuthUnitAgent := false, AuthClient := false,
    AuthController := true }

/-- A strings watcher with one pending value, `["unit-a"]`, and no stored error. -/
def sampleStrings : StringsWatcher :=
  { pending := [["unit-a"]], err := none }

/-- A registry with a strings watcher under id `1` and a notify watcher under id `2`. -/
def sampleWorld : World :=
  { resources := [("1", .strings sampleStrings),
                  ("2", .notify { pending := [()], err := none })],
    calls := [] }

/-- A registry with no resource. -/
def emptyWorld : World :=
  { resources := [], calls := [] }

/-- Parsers that accept ids of the form `machine:storage` read as two fields split at the
first colon, for the examples. -/
def sampleParsers : Storagecommon :=
  { ParseVolumeAttachmentIds := fun ids =>
      ids.mapM fun id =>
        match id.splitOn ":" with
        | [m, v] => .ok { MachineId := m, StorageId := v }
        | _ => .error (.New ("invalid volume attachment id " ++ id)),
    ParseFilesystemAttachmentIds := fun ids =>
      ids.mapM fun id =>
        match id.splitOn ":" with
        | [m, v] => .ok { MachineId := m, StorageId := v }
        | _ => .error (.New ("invalid filesystem attachment id " ++ id)) }

/-- Closure is permanent for the operation `next` of a facade type: once a call of `next` has
seen the receive report the channel closed, every later call on the facade it leaves returns
an error, whatever the backing source does to the watcher between the calls short of
reopening the channel (which a closed channel does not allow); and when nothing acts on the
watcher, each later call returns the terminal error of the watcher as it stood. -/
def permanentlyClosed {F R α : Type} (next : F → World → R × F × World)
    (watcher : F → Watcher α) (error : R → Option Error) : Prop :=
  ∀ (w : F) (s : World), (watcher w).Changes.1 = none →
    (∀ envs : List (F → F),
      (∀ g ∈ envs, ∀ w1 : F, (watcher w1).pending = [] → (watcher (g w1)).pending = []) →
      ((callsAmid next envs (next w s).2.1 (next w s).2.2).1.all
        fun r => (error r).isSome) = true) ∧
    (∀ (n : Nat), (calls next n (next w s).2.1 (next w s).2.2).1.map error =
      List.replicate n (some (terminalError (watcher w).Err)))

/-- A strings facade of id `1` over the given watcher. -/
def sampleStringsFacade (watcher : StringsWatcher) : srvStringsWatcher :=
  { watcherCommon := newWatcherCommon (sampleContext "1" unitAgent), watcher := watcher }

/-- A parser for the examples: it rejects any payload that holds the id `bad` and reads every
other id as a storage id of machine `0`. -/
def sampleParser (ids : List String) : Except Error (List MachineStorageId) :=
  if ids.contains "bad" then .error (.New "invalid volume attachment id")
  else .ok (ids.map fun id => { MachineId := "0", StorageId := id })

/-- A machine-storage-ids facade of id `1` over the given watcher, with `sampleParser`. -/
def sampleStorageFacade (watcher : StringsWatcher) : srvMachineStorageIdsWatcher :=
  { watcherCommon := newWatcherCommon (sampleContext "1" machineAgent), watcher := watcher,
    parser := sampleParser }

/-- A recorded migration: id `mig-1`, attempt 3, phase `REAP`, one target address. -/
def sampleMigration : ModelMigration :=
  { Id := "mig-1", Attempt := 3, Phase := .ok .REAP,
    TargetInfo := .ok { Addrs := ["10.0.0.5:17070"], CACert := "CERT" } }

/-- A backend with the recorded migration `sampleMigration`, two host-port sections and a
controller CA certificate. -/
def sampleMigrationBackend : migrationBackend :=
  { LatestMigration := .ok sampleMigration,
    APIHostPorts := .ok [[{ Value := "10.0.0.1", Port := 17070 },
                          { Value := "10.0.0.2", Port := 17070 }],
                         [{ Value := "192.168.0.1", Port := 17070 }]],
    ControllerConfig := .ok { CACert := some "SOURCE-CERT" } }

/-- A migration-status facade of id `2` over the given backend, with one pending signal. -/
def sampleMigrationFacade (st : migrationBackend) : srvMigrationStatusWatcher :=
  { watcherCommon := newWatcherCommon (sampleContext "2" machineAgent),
    watcher := { pending := [()], err := none }, st := st }

/-- An all-watcher facade of id `3` over the given aggregator. -/
def sampleAllFacade (watcher : Multiwatcher) : SrvAllWatcher :=
  { watcherCommon := newWatcherCommon (sampleContext "3" clientOnly), watcher := watcher }

/-- The registry of `sampleWorld`, in a world where the registry fails to stop any id. -/
def failingStopWorld : World :=
  { resources := sampleWorld.resources, calls := [],
    stopError := fun _ => some (.New "stop failed") }

/-- A backend like `sampleMigrationBackend` whose controller configuration has no CA
certificate. -/
def noCACertBackend : migrationBackend :=
  { sampleMigrationBackend with ControllerConfig := .ok { CACert := none } }

/-- A backend like `sampleMigrationBackend` whose migration fails to report its phase. -/
def phaseFailingBackend : migrationBackend :=
  { sampleMigrationBackend with
    LatestMigration := .ok { sampleMigration with Phase := .error (.New "connection lost") } }

end Apiserver

/-!
# The storage command (`juju2/cmd/juju/storage/storage.go`)
-/

namespace Storage

open Apiserver (Error)

/-- The assignment `m[k] = v` on a Go map with string keys, held as the list of its entries:
the entry of `k`, if there is one, is replaced. -/
def mapSet {V : Type} (m : List (String × V)) (k : String) (v : V) : List (String × V) :=
  (k, v) :: m.filter (fun entry => entry.1 != k)

/-- A tag of `gopkg.in/juju/names.v2` (`names.StorageTag`, `names.UnitTag`,
`names.MachineTag`), by what its method `Id()` returns. -/
structure Tag where
  Id : String
  deriving DecidableEq, Repr

/-- What `createStorageInfo` calls outside its file, none of it among the sources and all of
it taken as given: the three tag parsers of `names.v2`, `StorageKind.String` of package
`params` (the kind is an integer) and `common.FormatTime` (the time is a pointer, `none`
when nil). -/
structure Deps where
  ParseStorageTag : String → Except Error Tag
  ParseUnitTag : String → Except Error Tag
  ParseMachineTag : String → Except Error Tag
  KindString : Nat → String
  FormatTime : Option Int → Bool → String

/-- The status of `params.StorageDetails` (`params.EntityStatus`), with the three fields
`createStorageInfo` reads. -/
structure DetailsStatus where
  Status : String
  Info : String
  Since : Option Int
  deriving DecidableEq, Repr

/-- One value of the map `Attachments` of `params.StorageDetails`
(`params.StorageAttachmentDetails`), with the two fields `createStorageInfo` reads. -/
structure StorageAttachmentDetails where
  MachineTag : String
  Location : String
  deriving DecidableEq, Repr

/-- The struct `params.StorageDetails`, with the fields `createStorageInfo` reads; the map
`Attachments` is the list of its entries in the order the `range` loop visits them. -/
structure StorageDetails where
  StorageTag : String
  Kind : Nat
  Status : DetailsStatus
  Persistent : Bool
  Attachments : List (String × StorageAttachmentDetails)
  deriving DecidableEq, Repr

/-- The struct `EntityStatus` of package `storage`, declared in another file: three fields,
set in this order by `createStorageInfo`. -/
structure EntityStatus where
  Current : String
  Message : String
  Since : String
  deriving DecidableEq, Repr

/-- The struct `UnitStorageAttachment`. -/
structure UnitStorageAttachment where
  MachineId : String
  Location : String
  deriving DecidableEq, Repr

/-- The struct `StorageAttachments`. -/
structure StorageAttachments where
  Units : List (String × UnitStorageAttachment)
  deriving DecidableEq, Repr

/-- The struct `StorageInfo`; `Attachments` is a pointer, `none` when nil. -/
structure StorageInfo where
  Kind : String
  Status : EntityStatus
  Persistent : Bool
  Attachments : Option StorageAttachments
  deriving DecidableEq, Repr

/-- The loop of `createStorageInfo` over `details.Attachments`, from the map built so far. -/
def createStorageInfo.units (deps : Deps) :
    List (String × StorageAttachmentDetails) → List (String × UnitStorageAttachment) →
    Except Error (List (String × UnitStorageAttachment))
  | [], unitStorageAttachments => .ok unitStorageAttachments
  | (unitTagString, attachmentDetails) :: rest, unitStorageAttachments =>
    match deps.ParseUnitTag unitTagString with
    | .error err => .error (Error.Trace err)
    | .ok unitTag =>
      let machineId : Except Error String :=
        if attachmentDetails.MachineTag != "" then
          match deps.ParseMachineTag attachmentDetails.MachineTag with
          | .error err => .error (Error.Trace err)
          | .ok machineTag => .ok machineTag.Id
        else .ok ""
      match machineId with
      | .error err => .error err
      | .ok machineId =>
        createStorageInfo.units deps rest
          (mapSet unitStorageAttachments unitTag.Id
            { MachineId := machineId, Location := attachmentDetails.Location })

/-- The function `createStorageInfo`; on an error the tag and the info it returns are zero
values, which are left out. -/
def createStorageInfo (deps : Deps) (details : StorageDetails) :
    Except Error (Tag × StorageInfo) :=
  match deps.ParseStorageTag details.StorageTag with
  | .error err => .error (Error.Trace err)
  | .ok storageTag =>
    let info : StorageInfo :=
      { Kind := deps.KindString details.Kind,
        Status := { Current := details.Status.Status,
                    Message := details.Status.Info,
                    Since := deps.FormatTime details.Status.Since false },
        Persistent := details.Persistent,
        Attachments := none }
    if details.Attachments.length > 0 then
      match createStorageInfo.units deps details.Attachments [] with
      | .error err => .error err
      | .ok unitStorageAttachments =>
        .ok (storageTag, { info with Attachments := some { Units := unitStorageAttachments } })
    else
      .ok (storageTag, info)

/-- The loop of `formatStorageDetails` over `storages`, from the map built so far. -/
def formatStorageDetails.loop (deps : Deps) :
    List StorageDetails → List (String × StorageInfo) →
    Option (List (String × StorageInfo)) × Option Error
  | [], output => (some output, none)
  | details :: rest, output =>
    match createStorageInfo deps details with
    | .error err => (none, some (Error.Trace err))
    | .ok (storageTag, storageInfo) =>
      formatStorageDetails.loop deps rest (mapSet output storageTag.Id storageInfo)

/-- The function `formatStorageDetails`; the map returned is `none` when nil. -/
def formatStorageDetails (deps : Deps) (storages : List StorageDetails) :
    Option (List (String × StorageInfo)) × Option Error :=
  if storages.length = 0 then
    (none, none)
  else
    formatStorageDetails.loop deps storages []

/-- Every tag of an input parses: its storage tag, the unit tag of each attachment and each
machine tag that is not empty. -/
def tagsParse (deps : Deps) (details : StorageDetails) : Prop :=
  (∃ tag, deps.ParseStorageTag details.StorageTag = .ok tag) ∧
  ∀ entry ∈ details.Attachments,
    (∃ tag, deps.ParseUnitTag entry.1 = .ok tag) ∧
    (entry.2.MachineTag ≠ "" → ∃ tag, deps.ParseMachineTag entry.2.MachineTag = .ok tag)

/-- The storage id and the `StorageInfo` which `createStorageInfo` builds from each input, in
the order of the inputs (an input on which it fails gives no entry). -/
def entries (deps : Deps) (storages : List StorageDetails) : List (String × StorageInfo) :=
  storages.filterMap fun details =>
    match createStorageInfo deps details with
    | .ok (storageTag, storageInfo) => some (storageTag.Id, storageInfo)
    | .error _ => none

/-- Tag parsers for the examples: a tag is its kind, a dash and the id, and the parser of a
kind accepts the tags that start with that kind. -/
def sampleDeps : Deps :=
  { ParseStorageTag := fun tag =>
      match tag.data with
      | 's' :: 't' :: 'o' :: 'r' :: 'a' :: 'g' :: 'e' :: '-' :: id => .ok { Id := String.mk id }
      | _ => .error (.New "not a valid storage tag"),
    ParseUnitTag := fun tag =>
      match tag.data with
      | 'u' :: 'n' :: 'i' :: 't' :: '-' :: id => .ok { Id := String.mk id }
      | _ => .error (.New "not a valid unit tag"),
    ParseMachineTag := fun tag =>
      match tag.data with
      | 'm' :: 'a' :: 'c' :: 'h' :: 'i' :: 'n' :: 'e' :: '-' :: id => .ok { Id := String.mk id }
      | _ => .error (.New "not a valid machine tag"),
    KindString := fun kind => if kind = 1 then "block" else "filesystem",
    FormatTime := fun _ _ => "" }

/-- An input for the examples: the storage of the given tag, attached to one unit with the
given location. -/
def sampleDetails (storageTag location : String) : StorageDetails :=
  { StorageTag := storageTag, Kind := 1,
    Status := { Status := "attached", Info := "", Since := none },
    Persistent := false,
    Attachments := [("unit-mysql-0", { MachineTag := "machine-0", Location := location })] }

end Storage

/-!
# The Rackspace provider (`juju2/provider/rackspace/provider.go`)
-/

namespace Rackspace

/-- The package `strings` of the Go library, by the one function `transformCloudSpec` calls:
`strings.ToUpper`, which maps every letter of a string, of whatever script, to its upper
case. The function is not part of the repository and is taken as given. -/
structure Strings where
  ToUpper : String → String

/-- The struct `environs.CloudSpec`, not among the sources: the field `Region` and, taken as
given, its other fields together. -/
structure CloudSpec (Rest : Type) where
  Region : String
  rest : Rest

/-- The struct `environs.PrepareConfigParams`: the field `Cloud` and, taken as given, its
other fields together. -/
structure PrepareConfigParams (Rest Other : Type) where
  Cloud : CloudSpec Rest
  other : Other

/-- The struct `environs.OpenParams`: the field `Cloud` and, taken as given, its other
fields together. -/
structure OpenParams (Rest Other : Type) where
  Cloud : CloudSpec Rest
  other : Other

/-- The embedded `environs.EnvironProvider`, by its two methods used here; what they return
is taken as given. -/
structure EnvironProvider (Rest Other Prepared Opened : Type) where
  PrepareConfig : PrepareConfigParams Rest Other → Prepared
  Open : OpenParams Rest Other → Opened

/-- The struct `environProvider`. -/
structure environProvider (Rest Other Prepared Opened : Type) where
  EnvironProvider : EnvironProvider Rest Other Prepared Opened

/-- The function `transformCloudSpec`. -/
def transformCloudSpec {Rest : Type} (strings : Strings) (spec : CloudSpec Rest) :
    CloudSpec Rest :=
  { spec with Region := strings.ToUpper spec.Region }

/-- The method `environProvider.PrepareConfig`. -/
def environProvider.PrepareConfig {Rest Other Prepared Opened : Type} (strings : Strings)
    (p : environProvider Rest Other Prepared Opened) (args : PrepareConfigParams Rest Other) :
    Prepared :=
  let args := { args with Cloud := transformCloudSpec strings args.Cloud }
  p.EnvironProvider.PrepareConfig args

/-- The method `environProvider.Open`. -/
def environProvider.Open {Rest Other Prepared Opened : Type} (strings : Strings)
    (p : environProvider Rest Other Prepared Opened) (args : OpenParams Rest Other) : Opened :=
  let args := { args with Cloud := transformCloudSpec strings args.Cloud }
  p.EnvironProvider.Open args

/-- An upper-casing for the examples, which are about region names spelled with the letters
`a` to `z`: these letters are put in upper case and any other character is kept. -/
def asciiStrings : Strings :=
  { ToUpper := fun s => String.mk (s.data.map Char.toUpper) }

/-- An embedded provider for the examples, which returns the region it is given. -/
def echoProvider : environProvider String String String String :=
  { EnvironProvider := { PrepareConfig := fun args => args.Cloud.Region,
                         Open := fun args => args.Cloud.Region } }

end Rackspace

/-!
# The LXD instance (`juju2/provider/lxd/instance.go`)
-/

namespace Lxd

open Apiserver (Error IsNotImplemented)

/-- The status names of package `tools/lxdclient`, which is not among the sources: the eight
string constants the switch of `Status` names, taken as given. -/
structure Lxdclient where
  StatusStarting : String
  StatusStarted : String
  StatusRunning : String
  StatusFreezing : String
  StatusFrozen : String
  StatusThawed : String
  StatusStopping : String
  StatusStopped : String

/-- The constants of package `status` which `Status` names. -/
inductive Status where
  | Pending
  | Allocating
  | Running
  | Empty
  deriving DecidableEq, Repr

/-- The struct `instance.InstanceStatus`. -/
structure InstanceStatus where
  Status : Status
  Message : String
  deriving DecidableEq, Repr

/-- The struct `network.PortRange`. -/
structure PortRange where
  FromPort : Nat
  ToPort : Nat
  Protocol : String
  deriving DecidableEq, Repr

/-- The raw instance (`*lxdclient.Instance`), by its name and what `Status()` returns. -/
structure Instance where
  Name : String
  Status : String

/-- The struct `environ`, by the two calls `Ports` makes on it: `namespace.Hostname` and
`raw.Ports`, whose results are taken as given. -/
structure environ where
  Hostname : String → Except Error String
  Ports : String → List PortRange × Option Error

/-- The struct `environInstance`. -/
structure environInstance where
  raw : Instance
  env : environ

set_option linter.unusedVariables false in
/-- The method `environInstance.Status`; every branch of the switch assigns `jujuStatus`. -/
def environInstance.Status (lxdclient : Lxdclient) (inst : environInstance) : InstanceStatus :=
  let jujuStatus := Status.Pending
  let instStatus := inst.raw.Status
  let jujuStatus :=
    if instStatus = lxdclient.StatusStarting ∨ instStatus = lxdclient.StatusStarted then
      Status.Allocating
    else if instStatus = lxdclient.StatusRunning then
      Status.Running
    else if instStatus = lxdclient.StatusFreezing ∨ instStatus = lxdclient.StatusFrozen ∨
        instStatus = lxdclient.StatusThawed ∨ instStatus = lxdclient.StatusStopping ∨
        instStatus = lxdclient.StatusStopped then
      Status.Empty
    else
      Status.Empty
  { Status := jujuStatus, Message := instStatus }

/-- The method `environInstance.Ports`; `errors.Trace` of a nil error is nil. -/
def environInstance.Ports (inst : environInstance) (machineID : String) :
    List PortRange × Option Error :=
  match inst.env.Hostname machineID with
  | .error err => ([], some (Error.Trace err))
  | .ok name =>
    match inst.env.Ports name with
    | (ports, err) =>
      if IsNotImplemented err then
        ([], none)
      else
        (ports, err.map Error.Trace)

/-- Modelled from the spec: the order of `network.SortPorts`, which the specification leaves
open; it is taken to compare the protocol, then the first port, then the last port. -/
def PortRange.less (a b : PortRange) : Bool :=
  decide (a.Protocol.data < b.Protocol.data) ||
    (a.Protocol == b.Protocol &&
      (decide (a.FromPort < b.FromPort) ||
        (a.FromPort == b.FromPort && decide (a.ToPort < b.ToPort))))

/-- A slice of port ranges is in `SortPorts` order: no range comes right after one that it
precedes. -/
def inSortPortsOrder : List PortRange → Bool
  | [] => true
  | [_] => true
  | a :: b :: rest => !(PortRange.less b a) && inSortPortsOrder (b :: rest)

/-- The status names as LXD spells them, for the examples. -/
def sampleNames : Lxdclient :=
  { StatusStarting := "Starting", StatusStarted := "Started", StatusRunning := "Running",
    StatusFreezing := "Freezing", StatusFrozen := "Frozen", StatusThawed := "Thawed",
    StatusStopping := "Stopping", StatusStopped := "Stopped" }

/-- An instance for the examples: its raw status is the given string, and the raw client
reports the ports 80 and then 22, both `tcp`, with no error, for any name. -/
def sampleInstance (rawStatus : String) : environInstance :=
  { raw := { Name := "juju-0", Status := rawStatus },
    env := { Hostname := fun machineID => .ok ("juju-" ++ machineID),
             Ports := fun _ =>
               ([{ FromPort := 80, ToPort := 80, Protocol := "tcp" },
                 { FromPort := 22, ToPort := 22, Protocol := "tcp" }], none) } }

end Lxd

namespace Apiserver

/-! ## Theorems -/

/-! ### Helper lemmas on the constructors -/

theorem specRequiredAuth_cases (name : FacadeName) (auth : Authorizer) :
    (specRequiredAuth name auth = auth.AuthClient ∧
        (name = .AllWatcher ∨ name = .AllModelWatcher)) ∨
      (specRequiredAuth name auth = auth.AuthController ∧
        (name = .RemoteApplicationWatcher ∨ name = .RemoteRelationsWatcher)) ∨
      (specRequiredAuth name auth = isAgent auth ∧
        (name = .NotifyWatcher ∨ name = .StringsWatcher ∨ name = .RelationUnitsWatcher ∨
          name = .VolumeAttachmentsWatcher ∨ name = .FilesystemAttachmentsWatcher ∨
          name = .EntityWatcher ∨ name = .MigrationStatusWatcher)) := by
  cases name <;> simp [specRequiredAuth, isAgent]

theorem factory_denied (storagecommon : Storagecommon) (name : FacadeName) (context : Context)
    (s : World) (h : specRequiredAuth name context.Auth = false) :
    factory storagecommon name context s = (.error .ErrPerm, s) := by
  rcases specRequiredAuth_cases name context.Auth with
    ⟨e, rfl | rfl⟩ | ⟨e, rfl | rfl⟩ | ⟨e, rfl | rfl | rfl | rfl | rfl | rfl | rfl⟩ <;>
    rw [e] at h <;>
    simp [factory, asFacade, NewAllWatcher, newNotifyWatcher, newStringsWatcher,
      newRelationUnitsWatcher, newRemoteApplicationWatcher, newRemoteRelationsWatcher,
      newVolumeAttachmentsWatcher, newFilesystemAttachmentsWatcher, newMachineStorageIdsWatcher,
      newEntitiesWatcher, newMigrationStatusWatcher, h]

theorem factory_unknown (storagecommon : Storagecommon) (name : FacadeName) (context : Context)
    (s : World) (h : specRequiredAuth name context.Auth = true)
    (hr : ∀ r, s.resources.lookup context.ID = some r → r.hasType (specExpectedType name) = false) :
    factory storagecommon name context s =
      (.error .ErrUnknownWatcher, s.record (Call.ResourcesGet context.ID)) := by
  cases hl : s.resources.lookup context.ID with
  | none =>
    rcases specRequiredAuth_cases name context.Auth with
      ⟨e, rfl | rfl⟩ | ⟨e, rfl | rfl⟩ | ⟨e, rfl | rfl | rfl | rfl | rfl | rfl | rfl⟩ <;>
      rw [e] at h <;>
      simp [factory, asFacade, NewAllWatcher, newNotifyWatcher, newStringsWatcher,
        newRelationUnitsWatcher, newRemoteApplicationWatcher, newRemoteRelationsWatcher,
        newVolumeAttachmentsWatcher, newFilesystemAttachmentsWatcher,
        newMachineStorageIdsWatcher, newEntitiesWatcher, newMigrationStatusWatcher, h,
        World.Get, hl, asMultiwatcher, asNotifyWatcher, asStringsWatcher,
        asRelationUnitsWatcher, asRemoteApplicationWatcher, asRemoteRelationsWatcher,
        asEntitiesWatcher]
  | some r =>
    have hr1 := hr r hl
    rcases specRequiredAuth_cases name context.Auth with
      ⟨e, rfl | rfl⟩ | ⟨e, rfl | rfl⟩ | ⟨e, rfl | rfl | rfl | rfl | rfl | rfl | rfl⟩ <;>
      rw [e] at h <;>
      cases r <;>
      simp [specExpectedType, Resource.hasType] at hr1 <;>
      simp [factory, asFacade, NewAllWatcher, newNotifyWatcher, newStringsWatcher,
        newRelationUnitsWatcher, newRemoteApplicationWatcher, newRemoteRelationsWatcher,
        newVolumeAttachmentsWatcher, newFilesystemAttachmentsWatcher,
        newMachineStorageIdsWatcher, newEntitiesWatcher, newMigrationStatusWatcher, h,
        World.Get, hl, asMultiwatcher, asNotifyWatcher, asStringsWatcher,
        asRelationUnitsWatcher, asRemoteApplicationWatcher, asRemoteRelationsWatcher,
        asEntitiesWatcher]

theorem factory_found (storagecommon : Storagecommon) (name : FacadeName) (context : Context)
    (s : World) (r : Resource) (h : specRequiredAuth name context.Auth = true)
    (hl : s.resources.lookup context.ID = some r)
    (ht : r.hasType (specExpectedType name) = true) :
    ∃ f : Facade, factory storagecommon name context s =
        (.ok f, s.record (Call.ResourcesGet context.ID)) ∧
      f.id = context.ID ∧ f.holds r := by
  rcases specRequiredAuth_cases name context.Auth with
    ⟨e, rfl | rfl⟩ | ⟨e, rfl | rfl⟩ | ⟨e, rfl | rfl | rfl | rfl | rfl | rfl | rfl⟩ <;>
    rw [e] at h <;>
    cases r <;>
    simp [specExpectedType, Resource.hasType] at ht <;>
    simp [factory, asFacade, NewAllWatcher, newNotifyWatcher, newStringsWatcher,
      newRelationUnitsWatcher, newRemoteApplicationWatcher, newRemoteRelationsWatcher,
      newVolumeAttachmentsWatcher, newFilesystemAttachmentsWatcher,
      newMachineStorageIdsWatcher, newEntitiesWatcher, newMigrationStatusWatcher, h,
      World.Get, hl, asMultiwatcher, asNotifyWatcher, asStringsWatcher,
      asRelationUnitsWatcher, asRemoteApplicationWatcher, asRemoteRelationsWatcher,
      asEntitiesWatcher, Facade.id, Facade.holds, newWatcherCommon]

/-! ### The authorization gate -/

/-- C1: each of `newNotifyWatcher`, `newStringsWatcher`, `newRelationUnitsWatcher`,
`newVolumeAttachmentsWatcher`, `newFilesystemAttachmentsWatcher`, `newEntitiesWatcher` and
`newMigrationStatusWatcher` fails with `ErrPerm`, for every context and registry, if and only
if the authorizer is neither a machine agent nor a unit agent. -/
theorem agent_constructors_ErrPerm_iff (storagecommon : Storagecommon) (context : Context)
    (s : World) :
    ((newNotifyWatcher context s).1 = .error .ErrPerm ↔
      (context.Auth.AuthMachineAgent = false ∧ context.Auth.AuthUnitAgent = false)) ∧
    ((newStringsWatcher context s).1 = .error .ErrPerm ↔
      (context.Auth.AuthMachineAgent = false ∧ context.Auth.AuthUnitAgent = false)) ∧
    ((newRelationUnitsWatcher context s).1 = .error .ErrPerm ↔
      (context.Auth.AuthMachineAgent = false ∧ context.Auth.AuthUnitAgent = false)) ∧
    ((newVolumeAttachmentsWatcher storagecommon context s).1 = .error .ErrPerm ↔
      (context.Auth.AuthMachineAgent = false ∧ context.Auth.AuthUnitAgent = false)) ∧
    ((newFilesystemAttachmentsWatcher storagecommon context s).1 = .error .ErrPerm ↔
      (context.Auth.AuthMachineAgent = false ∧ context.Auth.AuthUnitAgent = false)) ∧
    ((newEntitiesWatcher context s).1 = .error .ErrPerm ↔
      (context.Auth.AuthMachineAgent = false ∧ context.Auth.AuthUnitAgent = false)) ∧
    ((newMigrationStatusWatcher context s).1 = .error .ErrPerm ↔
      (context.Auth.AuthMachineAgent = false ∧ context.Auth.AuthUnitAgent = false)) := by
  refine ⟨?_, ?_, ?_, ?_, ?_, ?_, ?_⟩ <;>
    simp only [newNotifyWatcher, newStringsWatcher, newRelationUnitsWatcher,
      newVolumeAttachmentsWatcher, newFilesystemAttachmentsWatcher, newMachineStorageIdsWatcher,
      newEntitiesWatcher, newMigrationStatusWatcher, isAgent, World.Get] <;>
    cases context.Auth.AuthMachineAgent <;> cases context.Auth.AuthUnitAgent <;> simp <;>
    split <;> simp

/-- C1, at concrete authorizers: a client-only and a controller-only authorizer are denied the
strings watcher with `ErrPerm`; a unit agent alone and a machine agent alone are not. -/
theorem agent_constructors_ErrPerm_iff_witness :
    (newStringsWatcher (sampleContext "1" clientOnly) sampleWorld).1 = .error .ErrPerm ∧
    (newStringsWatcher (sampleContext "1" controllerOnly) sampleWorld).1 = .error .ErrPerm ∧
    (newStringsWatcher (sampleContext "1" unitAgent) sampleWorld).1 ≠ .error .ErrPerm ∧
    (newStringsWatcher (sampleContext "1" machineAgent) sampleWorld).1 ≠ .error .ErrPerm :=
  ⟨(agent_constructors_ErrPerm_iff sampleParsers (sampleContext "1" clientOnly)
      sampleWorld).2.1.mpr ⟨rfl, rfl⟩,
   (agent_constructors_ErrPerm_iff sampleParsers (sampleContext "1" controllerOnly)
      sampleWorld).2.1.mpr ⟨rfl, rfl⟩,
   fun h => Bool.noConfusion ((agent_constructors_ErrPerm_iff sampleParsers
      (sampleContext "1" unitAgent) sampleWorld).2.1.mp h).2,
   fun h => Bool.noConfusion ((agent_constructors_ErrPerm_iff sampleParsers
      (sampleContext "1" machineAgent) sampleWorld).2.1.mp h).1⟩

/-- C2: `NewAllWatcher` fails with `ErrPerm` if and only if `AuthClient` is false, and
`newRemoteApplicationWatcher` and `newRemoteRelationsWatcher` if and only if `AuthController`
is false; and the whole outcome of each of the three is the same for any two authorizers that
agree on that one predicate, whatever the other role predicates answer. -/
theorem client_controller_constructors_ErrPerm_iff (context : Context) (s : World) :
    ((NewAllWatcher context s).1 = .error .ErrPerm ↔ context.Auth.AuthClient = false) ∧
    ((newRemoteApplicationWatcher context s).1 = .error .ErrPerm ↔
      context.Auth.AuthController = false) ∧
    ((newRemoteRelationsWatcher context s).1 = .error .ErrPerm ↔
      context.Auth.AuthController = false) ∧
    (∀ auth : Authorizer, auth.AuthClient = context.Auth.AuthClient →
      NewAllWatcher { context with Auth := auth } s = NewAllWatcher context s) ∧
    (∀ auth : Authorizer, auth.AuthController = context.Auth.AuthController →
      newRemoteApplicationWatcher { context with Auth := auth } s =
        newRemoteApplicationWatcher context s) ∧
    (∀ auth : Authorizer, auth.AuthController = context.Auth.AuthController →
      newRemoteRelationsWatcher { context with Auth := auth } s =
        newRemoteRelationsWatcher context s) := by
  refine ⟨?_, ?_, ?_, ?_, ?_, ?_⟩
  · simp only [NewAllWatcher, World.Get]
    cases context.Auth.AuthClient <;> simp
    split <;> simp
  · simp only [newRemoteApplicationWatcher, World.Get]
    cases context.Auth.AuthController <;> simp
    split <;> simp
  · simp only [newRemoteRelationsWatcher, World.Get]
    cases context.Auth.AuthController <;> simp
    split <;> simp
  · intro auth h
    simp [NewAllWatcher, h, newWatcherCommon]
  · intro auth h
    simp [newRemoteApplicationWatcher, h, newWatcherCommon]
  · intro auth h
    simp [newRemoteRelationsWatcher, h, newWatcherCommon]

/-- C2, at a concrete authorizer: a machine agent that is not a client is denied by
`NewAllWatcher`, and a client that is not a controller by the two remote constructors. -/
theorem client_controller_constructors_ErrPerm_iff_witness :
    (NewAllWatcher (sampleContext "1" machineAgent) sampleWorld).1 = .error .ErrPerm ∧
    (newRemoteApplicationWatcher (sampleContext "1" clientOnly) sampleWorld).1 =
      .error .ErrPerm ∧
    (newRemoteRelationsWatcher (sampleContext "1" clientOnly) sampleWorld).1 =
      .error .ErrPerm :=
  ⟨(client_controller_constructors_ErrPerm_iff (sampleContext "1" machineAgent)
      sampleWorld).1.mpr rfl,
   (client_controller_constructors_ErrPerm_iff (sampleContext "1" clientOnly)
      sampleWorld).2.1.mpr rfl,
   (client_controller_constructors_ErrPerm_iff (sampleContext "1" clientOnly)
      sampleWorld).2.2.1.mpr rfl⟩

/-- C3: for every registered constructor and every context whose authorizer fails the role
predicate of that facade, the constructor returns `(nil, ErrPerm)` and makes no call on the
registry (the log of calls, where every `Get` and `Stop` is recorded, is as before), so the
contents of the registry and its `Count()` are the same after the call as before it. -/
theorem denied_leaves_registry_untouched (storagecommon : Storagecommon) (name : FacadeName)
    (context : Context) (s : World) (h : specRequiredAuth name context.Auth = false) :
    (factory storagecommon name context s).1 = .error .ErrPerm ∧
      (factory storagecommon name context s).2.calls = s.calls ∧
      (factory storagecommon name context s).2.resources = s.resources ∧
      (factory storagecommon name context s).2.Count = s.Count := by
  rw [factory_denied storagecommon name context s h]
  exact ⟨rfl, rfl, rfl, rfl⟩

/-- C3, at a concrete input: a client that is no agent asks for the strings watcher
registered under id `1`; it is denied, no call is logged and the registry still counts two
resources. -/
theorem denied_leaves_registry_untouched_witness :
    (factory sampleParsers .StringsWatcher (sampleContext "1" clientOnly) sampleWorld).1 =
        .error .ErrPerm ∧
      (factory sampleParsers .StringsWatcher (sampleContext "1" clientOnly) sampleWorld).2.calls =
        [] ∧
      (factory sampleParsers .StringsWatcher (sampleContext "1" clientOnly)
        sampleWorld).2.resources = sampleWorld.resources ∧
      (factory sampleParsers .StringsWatcher (sampleContext "1" clientOnly) sampleWorld).2.Count =
        2 :=
  denied_leaves_registry_untouched sampleParsers .StringsWatcher (sampleContext "1" clientOnly)
    sampleWorld rfl

/-- C4: for every registered constructor, every id and every authorizer that fails the role
predicate of that facade, the result of the constructor is the same for any two registries
(whether they hold the id or not, and under whatever type): it is `ErrPerm`, never
`ErrUnknownWatcher`. -/
theorem denied_result_independent_of_registry (storagecommon : Storagecommon)
    (name : FacadeName) (context : Context) (s₁ s₂ : World)
    (h : specRequiredAuth name context.Auth = false) :
    (factory storagecommon name context s₁).1 = (factory storagecommon name context s₂).1 ∧
      (factory storagecommon name context s₁).1 = .error .ErrPerm ∧
      (factory storagecommon name context s₁).1 ≠ .error .ErrUnknownWatcher := by
  rw [factory_denied storagecommon name context s₁ h,
    factory_denied storagecommon name context s₂ h]
  refine ⟨rfl, rfl, ?_⟩
  intro hne
  cases hne

/-- C4, at concrete registries: a client that is no agent asks for a notify watcher under
id `1`, once where the id is absent, once where it is a strings watcher (another type) and
once, under id `2`, where it is a notify watcher (the expected type): `ErrPerm` each time. -/
theorem denied_result_independent_of_registry_witness :
    ((factory sampleParsers .NotifyWatcher (sampleContext "1" clientOnly) emptyWorld).1 =
        (factory sampleParsers .NotifyWatcher (sampleContext "1" clientOnly) sampleWorld).1 ∧
      (factory sampleParsers .NotifyWatcher (sampleContext "1" clientOnly) emptyWorld).1 =
        .error .ErrPerm ∧
      (factory sampleParsers .NotifyWatcher (sampleContext "1" clientOnly) emptyWorld).1 ≠
        .error .ErrUnknownWatcher) ∧
    ((factory sampleParsers .NotifyWatcher (sampleContext "2" clientOnly) sampleWorld).1 =
        (factory sampleParsers .NotifyWatcher (sampleContext "2" clientOnly) emptyWorld).1 ∧
      (factory sampleParsers .NotifyWatcher (sampleContext "2" clientOnly) sampleWorld).1 =
        .error .ErrPerm ∧
      (factory sampleParsers .NotifyWatcher (sampleContext "2" clientOnly) sampleWorld).1 ≠
        .error .ErrUnknownWatcher) :=
  ⟨denied_result_independent_of_registry sampleParsers .NotifyWatcher
      (sampleContext "1" clientOnly) emptyWorld sampleWorld rfl,
   denied_result_independent_of_registry sampleParsers .NotifyWatcher
      (sampleContext "2" clientOnly) sampleWorld emptyWorld rfl⟩

/-! ### The lookup of the resource -/

/-- C5: for every registered constructor and every context whose authorizer passes the gate:
if no resource is registered under the id, or the one registered is not of the type the
facade expects, construction fails with `ErrUnknownWatcher` (the same error in both cases);
if the resource is of the expected type, construction succeeds with a facade bound to that id
and holding that resource. Either way the registry, with the channel of every watcher and the
count of the receives made on it, is as before: nothing has been received. -/
theorem lookup_decides_construction (storagecommon : Storagecommon) (name : FacadeName)
    (context : Context) (s : World) (h : specRequiredAuth name context.Auth = true) :
    (s.resources.lookup context.ID = none →
      (factory storagecommon name context s).1 = .error .ErrUnknownWatcher) ∧
    (∀ r, s.resources.lookup context.ID = some r →
      r.hasType (specExpectedType name) = false →
      (factory storagecommon name context s).1 = .error .ErrUnknownWatcher) ∧
    (∀ r, s.resources.lookup context.ID = some r →
      r.hasType (specExpectedType name) = true →
      ∃ f : Facade, (factory storagecommon name context s).1 = .ok f ∧
        f.id = context.ID ∧ f.holds r) ∧
    (factory storagecommon name context s).2.resources = s.resources := by
  refine ⟨?_, ?_, ?_, ?_⟩
  · intro hl
    rw [factory_unknown storagecommon name context s h (by intro r hr; rw [hl] at hr; cases hr)]
  · intro r hl ht
    rw [factory_unknown storagecommon name context s h
      (by intro r1 hr; rw [hl] at hr; cases hr; exact ht)]
  · intro r hl ht
    obtain ⟨f, hf, hid, hh⟩ := factory_found storagecommon name context s r h hl ht
    exact ⟨f, by rw [hf], hid, hh⟩
  · cases hl : s.resources.lookup context.ID with
    | none =>
      rw [factory_unknown storagecommon name context s h
        (by intro r hr; rw [hl] at hr; cases hr)]
      rfl
    | some r =>
      cases ht : r.hasType (specExpectedType name) with
      | false =>
        rw [factory_unknown storagecommon name context s h
          (by intro r1 hr; rw [hl] at hr; cases hr; exact ht)]
        rfl
      | true =>
        obtain ⟨f, hf, _, _⟩ := factory_found storagecommon name context s r h hl ht
        rw [hf]
        rfl

/-- C5, at a concrete input: a unit agent asks for the strings watcher of id `1` and gets a
facade bound to id `1` that holds the registered watcher with its pending value and no receive
made; asked under id `3` (absent) or as a notify watcher (another type), the answer is
`ErrUnknownWatcher`. -/
theorem lookup_decides_construction_witness :
    (factory sampleParsers .StringsWatcher (sampleContext "3" unitAgent) sampleWorld).1 =
        .error .ErrUnknownWatcher ∧
    (factory sampleParsers .NotifyWatcher (sampleContext "1" unitAgent) sampleWorld).1 =
        .error .ErrUnknownWatcher ∧
    (∃ f : Facade,
      (factory sampleParsers .StringsWatcher (sampleContext "1" unitAgent) sampleWorld).1 =
          .ok f ∧
        f.id = "1" ∧ f.holds (.strings sampleStrings)) :=
  ⟨(lookup_decides_construction sampleParsers .StringsWatcher (sampleContext "3" unitAgent)
      sampleWorld rfl).1 (by rfl),
   (lookup_decides_construction sampleParsers .NotifyWatcher (sampleContext "1" unitAgent)
      sampleWorld rfl).2.1 (.strings sampleStrings) (by rfl) rfl,
   (lookup_decides_construction sampleParsers .StringsWatcher (sampleContext "1" unitAgent)
      sampleWorld rfl).2.2.1 (.strings sampleStrings) (by rfl) rfl⟩

/-! ### The operation `Next`: closed channel and delivered value -/

theorem Watcher.Changes_closed {α : Type} (w : Watcher α) (h : w.Changes.1 = none) :
    w.Changes = (none, { w with received := w.received + 1 }) ∧ w.pending = [] := by
  unfold Watcher.Changes at h ⊢
  cases hp : w.pending with
  | nil => simp
  | cons v rest => simp [hp] at h

theorem Watcher.Changes_delivered {α : Type} (w : Watcher α) (v : α) (h : w.Changes.1 = some v) :
    ∃ rest, w.pending = v :: rest ∧
      w.Changes = (some v, { w with pending := rest, received := w.received + 1 }) := by
  unfold Watcher.Changes at h ⊢
  cases hp : w.pending with
  | nil => simp [hp] at h
  | cons v1 rest =>
    simp [hp] at h
    subst h
    exact ⟨rest, rfl, rfl⟩

/-- C6: for each of the eight channel-based variants, whenever the receive on
`watcher.Changes()` reports the channel closed, `Next` returns the zero value of the wire
result of the variant together with the terminal error: `watcher.Err()` itself if it is not
nil, `ErrStoppedWatcher` if it is. -/
theorem closed_channel_returns_terminal_error :
    (∀ (w : srvNotifyWatcher) (s : World), w.watcher.Changes.1 = none →
      (w.Next s).1 = some (terminalError w.watcher.Err)) ∧
    (∀ (w : srvStringsWatcher) (s : World), w.watcher.Changes.1 = none →
      (w.Next s).1 = ({}, some (terminalError w.watcher.Err))) ∧
    (∀ (w : srvRelationUnitsWatcher) (s : World), w.watcher.Changes.1 = none →
      (w.Next s).1 = ({}, some (terminalError w.watcher.Err))) ∧
    (∀ (w : srvRemoteApplicationWatcher) (s : World), w.watcher.Changes.1 = none →
      (w.Next s).1 = ({}, some (terminalError w.watcher.Err))) ∧
    (∀ (w : srvRemoteRelationsWatcher) (s : World), w.watcher.Changes.1 = none →
      (w.Next s).1 = ({}, some (terminalError w.watcher.Err))) ∧
    (∀ (w : srvMachineStorageIdsWatcher) (s : World), w.watcher.Changes.1 = none →
      (w.Next s).1 = ({}, some (terminalError w.watcher.Err))) ∧
    (∀ (w : srvEntitiesWatcher) (s : World), w.watcher.toStringsWatcher.Changes.1 = none →
      (w.Next s).1 = ({}, some (terminalError w.watcher.toStringsWatcher.Err))) ∧
    (∀ (w : srvMigrationStatusWatcher) (s : World), w.watcher.Changes.1 = none →
      (w.Next s).1 = ({}, some (terminalError w.watcher.Err))) := by
  refine ⟨?_, ?_, ?_, ?_, ?_, ?_, ?_, ?_⟩ <;>
    intro w s h <;>
    obtain ⟨hc, _⟩ := Watcher.Changes_closed _ h <;>
    simp only [srvNotifyWatcher.Next, srvStringsWatcher.Next, srvRelationUnitsWatcher.Next,
      srvRemoteApplicationWatcher.Next, srvRemoteRelationsWatcher.Next,
      srvMachineStorageIdsWatcher.Next, srvEntitiesWatcher.Next,
      srvMigrationStatusWatcher.Next, hc, Watcher.Err, terminalError] <;>
    split <;> simp [*]

/-- C6, at concrete inputs: on a closed channel the strings variant returns the empty result
with the stored error `boom` when there is one, and with `ErrStoppedWatcher` when there is
none. -/
theorem closed_channel_returns_terminal_error_witness :
    ((sampleStringsFacade { pending := [], err := some (.New "boom") }).Next emptyWorld).1 =
        ({ Changes := [] }, some (.New "boom")) ∧
    ((sampleStringsFacade { pending := [], err := none }).Next emptyWorld).1 =
        ({ Changes := [] }, some .ErrStoppedWatcher) :=
  ⟨closed_channel_returns_terminal_error.2.1
      (sampleStringsFacade { pending := [], err := some (.New "boom") }) emptyWorld rfl,
   closed_channel_returns_terminal_error.2.1
      (sampleStringsFacade { pending := [], err := none }) emptyWorld rfl⟩

/-- C7: whenever the receive on `watcher.Changes()` delivers a value `v`, `Next` returns no
error; the strings and relation-units variants return a result whose `Changes` is `v` itself,
and the machine-storage-ids variant, whenever the injected parser succeeds on `v` with `p`,
returns no error and a result whose `Changes` is `p`. -/
theorem delivered_value_is_passed_through :
    (∀ (w : srvNotifyWatcher) (s : World) (v : Unit), w.watcher.Changes.1 = some v →
      (w.Next s).1 = none) ∧
    (∀ (w : srvStringsWatcher) (s : World) (v : List String), w.watcher.Changes.1 = some v →
      (w.Next s).1 = ({ Changes := v }, none)) ∧
    (∀ (w : srvRelationUnitsWatcher) (s : World) (v : RelationUnitsChange),
      w.watcher.Changes.1 = some v → (w.Next s).1 = ({ Changes := v }, none)) ∧
    (∀ (w : srvMachineStorageIdsWatcher) (s : World) (v : List String)
      (p : List MachineStorageId), w.watcher.Changes.1 = some v → w.parser v = .ok p →
      (w.Next s).1 = ({ Changes := p }, none)) := by
  refine ⟨?_, ?_, ?_, ?_⟩
  · intro w s v h
    obtain ⟨rest, _, hc⟩ := Watcher.Changes_delivered _ v h
    simp only [srvNotifyWatcher.Next, hc]
  · intro w s v h
    obtain ⟨rest, _, hc⟩ := Watcher.Changes_delivered _ v h
    simp only [srvStringsWatcher.Next, hc]
  · intro w s v h
    obtain ⟨rest, _, hc⟩ := Watcher.Changes_delivered _ v h
    simp only [srvRelationUnitsWatcher.Next, hc]
  · intro w s v p h hp
    obtain ⟨rest, _, hc⟩ := Watcher.Changes_delivered _ v h
    simp only [srvMachineStorageIdsWatcher.Next, hc, hp]

/-- C7, at concrete inputs: the strings variant passes `["unit-a"]` on unchanged, and the
machine-storage-ids variant returns what its parser makes of `["0:1"]`. -/
theorem delivered_value_is_passed_through_witness :
    ((sampleStringsFacade sampleStrings).Next emptyWorld).1 =
        ({ Changes := ["unit-a"] }, none) ∧
    (srvMachineStorageIdsWatcher.Next
        { watcherCommon := newWatcherCommon (sampleContext "1" unitAgent),
          watcher := { pending := [["0:1"]], err := none },
          parser := fun ids => .ok (ids.map fun id => { MachineId := id, StorageId := id }) }
        emptyWorld).1 =
      ({ Changes := [{ MachineId := "0:1", StorageId := "0:1" }] }, none) :=
  ⟨delivered_value_is_passed_through.2.1 (sampleStringsFacade sampleStrings) emptyWorld
      ["unit-a"] rfl,
   delivered_value_is_passed_through.2.2.2
      { watcherCommon := newWatcherCommon (sampleContext "1" unitAgent),
        watcher := { pending := [["0:1"]], err := none },
        parser := fun ids => .ok (ids.map fun id => { MachineId := id, StorageId := id }) }
      emptyWorld ["0:1"] [{ MachineId := "0:1", StorageId := "0:1" }] rfl rfl⟩

/-- C8: for the remote-application and the remote-relations variant, when the channel delivers
a snapshot `c`, `Next` returns a result whose `Change` is present and holds `c`, with no
error; when the channel is closed, `Change` is absent and an error is returned; hence, for
every facade, `Change` is present if and only if `Next` returns no error. -/
theorem remote_change_present_iff_no_error :
    (∀ (w : srvRemoteApplicationWatcher) (s : World),
      (∀ c, w.watcher.Changes.1 = some c → (w.Next s).1 = ({ Change := some c }, none)) ∧
      (w.watcher.Changes.1 = none →
        (w.Next s).1.1.Change = none ∧ (w.Next s).1.2 ≠ none) ∧
      ((w.Next s).1.1.Change.isSome = true ↔ (w.Next s).1.2 = none)) ∧
    (∀ (w : srvRemoteRelationsWatcher) (s : World),
      (∀ c, w.watcher.Changes.1 = some c → (w.Next s).1 = ({ Change := some c }, none)) ∧
      (w.watcher.Changes.1 = none →
        (w.Next s).1.1.Change = none ∧ (w.Next s).1.2 ≠ none) ∧
      ((w.Next s).1.1.Change.isSome = true ↔ (w.Next s).1.2 = none)) := by
  constructor
  · intro w s
    cases hr : w.watcher.Changes.1 with
    | none =>
      obtain ⟨hc, _⟩ := Watcher.Changes_closed _ hr
      simp [srvRemoteApplicationWatcher.Next, hc]
    | some c =>
      obtain ⟨rest, _, hc⟩ := Watcher.Changes_delivered _ c hr
      simp [srvRemoteApplicationWatcher.Next, hc]
  · intro w s
    cases hr : w.watcher.Changes.1 with
    | none =>
      obtain ⟨hc, _⟩ := Watcher.Changes_closed _ hr
      simp [srvRemoteRelationsWatcher.Next, hc]
    | some c =>
      obtain ⟨rest, _, hc⟩ := Watcher.Changes_delivered _ c hr
      simp [srvRemoteRelationsWatcher.Next, hc]

/-- C8, at concrete inputs: a remote-relations facade whose channel delivers one snapshot
returns it as a present `Change` with no error, and on the closed channel it returns no
`Change` and an error. -/
theorem remote_change_present_iff_no_error_witness :
    (srvRemoteRelationsWatcher.Next
        { watcherCommon := newWatcherCommon (sampleContext "1" controllerOnly),
          watcher := { pending := [{ ChangedRelations := ["db"] }], err := none } }
        emptyWorld).1 = ({ Change := some { ChangedRelations := ["db"] } }, none) ∧
    ((srvRemoteRelationsWatcher.Next
        { watcherCommon := newWatcherCommon (sampleContext "1" controllerOnly),
          watcher := { pending := [], err := none } }
        emptyWorld).1.1.Change = none ∧
      (srvRemoteRelationsWatcher.Next
        { watcherCommon := newWatcherCommon (sampleContext "1" controllerOnly),
          watcher := { pending := [], err := none } }
        emptyWorld).1.2 ≠ none) :=
  ⟨(remote_change_present_iff_no_error.2
      { watcherCommon := newWatcherCommon (sampleContext "1" controllerOnly),
        watcher := { pending := [{ ChangedRelations := ["db"] }], err := none } }
      emptyWorld).1 { ChangedRelations := ["db"] } rfl,
   (remote_change_present_iff_no_error.2
      { watcherCommon := newWatcherCommon (sampleContext "1" controllerOnly),
        watcher := { pending := [], err := none } }
      emptyWorld).2.1 rfl⟩

/-! ### Sequences of calls -/

theorem calls_zero {F R : Type} (next : F → World → R × F × World) (w : F) (s : World) :
    calls next 0 w s = ([], w, s) := rfl

theorem calls_succ {F R : Type} (next : F → World → R × F × World) (n : Nat) (w : F)
    (s : World) :
    calls next (n + 1) w s =
      ((next w s).1 :: (calls next n (next w s).2.1 (next w s).2.2).1,
        (calls next n (next w s).2.1 (next w s).2.2).2.1,
        (calls next n (next w s).2.1 (next w s).2.2).2.2) := by
  simp [calls, List.replicate_succ, callsAmid]

theorem srvStringsWatcher.Next_cons (w : srvStringsWatcher) (s : World) (v : List String)
    (rest : List (List String)) (h : w.watcher.pending = v :: rest) :
    w.Next s = (({ Changes := v }, none),
      { w with watcher := { w.watcher with pending := rest,
                                            received := w.watcher.received + 1 } }, s) := by
  simp [srvStringsWatcher.Next, Watcher.Changes, h]

theorem srvStringsWatcher.Next_nil (w : srvStringsWatcher) (s : World)
    (h : w.watcher.pending = []) :
    w.Next s = (({}, some (terminalError w.watcher.Err)),
      { w with watcher := { w.watcher with received := w.watcher.received + 1 } }, s) := by
  simp only [srvStringsWatcher.Next, Watcher.Changes, h, Watcher.Err, terminalError]
  split <;> simp [*]

theorem strings_calls_aux (vs : List (List String)) :
    ∀ (w : srvStringsWatcher) (s : World), w.watcher.pending = vs →
      ∀ i, (calls srvStringsWatcher.Next i w s).1 =
            (vs.take i).map
              (fun v => (({ Changes := v } : StringsWatchResult), (none : Option Error))) ++
            List.replicate (i - vs.length)
              (({} : StringsWatchResult), some (terminalError w.watcher.Err)) ∧
          (calls srvStringsWatcher.Next i w s).2.1.watcher.pending = vs.drop i := by
  induction vs with
  | nil =>
    intro w s h i
    induction i generalizing w s with
    | zero => simp [calls_zero, h]
    | succ n ih =>
      rw [calls_succ, srvStringsWatcher.Next_nil w s h]
      have h1 := ih { w with watcher := { w.watcher with received := w.watcher.received + 1 } }
        s h
      simp only [List.take_nil, List.map_nil, List.nil_append, List.length_nil, Nat.sub_zero,
        List.drop_nil] at h1 ⊢
      refine ⟨?_, h1.2⟩
      rw [h1.1, List.replicate_succ]
      rfl
  | cons v rest ih =>
    intro w s h i
    cases i with
    | zero => simp [calls_zero, h]
    | succ n =>
      rw [calls_succ, srvStringsWatcher.Next_cons w s v rest h]
      have h1 := ih
        { w with watcher := { w.watcher with pending := rest, received := w.watcher.received + 1 } }
        s rfl n
      simp only [List.take_succ_cons, List.map_cons, List.cons_append, List.length_cons,
        Nat.add_sub_add_right, List.drop_succ_cons]
      refine ⟨?_, h1.2⟩
      rw [h1.1]
      rfl

/-- C9: for a strings watcher whose channel delivers `v1, ..., vn` and is then closed, `n`
sequential calls of `srvStringsWatcher.Next` return `Changes = v1`, ..., `Changes = vn` in
that order with no error, `n + 1` calls return these followed by the terminal error (the
stored error if any, else `ErrStoppedWatcher`) with the empty result, and after `i` calls the
values still pending are the original ones without the first `i`: each call consumes exactly
one value. -/
theorem strings_next_delivers_in_order (w : srvStringsWatcher) (s : World) :
    (calls srvStringsWatcher.Next w.watcher.pending.length w s).1 =
        w.watcher.pending.map
          (fun v => (({ Changes := v } : StringsWatchResult), (none : Option Error))) ∧
    (calls srvStringsWatcher.Next (w.watcher.pending.length + 1) w s).1 =
        w.watcher.pending.map
          (fun v => (({ Changes := v } : StringsWatchResult), (none : Option Error))) ++
        [(({} : StringsWatchResult), some (terminalError w.watcher.Err))] ∧
    (∀ i, (calls srvStringsWatcher.Next i w s).2.1.watcher.pending =
        w.watcher.pending.drop i) := by
  refine ⟨?_, ?_, ?_⟩
  · have h := (strings_calls_aux w.watcher.pending w s rfl w.watcher.pending.length).1
    simpa using h
  · have h := (strings_calls_aux w.watcher.pending w s rfl (w.watcher.pending.length + 1)).1
    rw [List.take_of_length_le (Nat.le_succ _)] at h
    simpa using h
  · intro i
    exact (strings_calls_aux w.watcher.pending w s rfl i).2

/-- C9, the example of the specification: a unit agent obtains the strings facade of id `1`,
whose backend content is `["unit-a"]`; the first `Next` returns `Changes = ["unit-a"]` and,
the channel being closed afterwards, the second returns `ErrStoppedWatcher`. -/
theorem strings_next_delivers_in_order_witness :
    (newStringsWatcher (sampleContext "1" unitAgent) sampleWorld).1.toOption.map
        (fun f => f.watcher) = some sampleStrings ∧
    (calls srvStringsWatcher.Next 2 (sampleStringsFacade sampleStrings) sampleWorld).1 =
        [({ Changes := ["unit-a"] }, none), ({ Changes := [] }, some .ErrStoppedWatcher)] :=
  ⟨rfl, (strings_next_delivers_in_order (sampleStringsFacade sampleStrings) sampleWorld).2.1⟩

/-! ### Permanence of the closure -/

theorem callsAmid_cons_fst {F R : Type} (next : F → World → R × F × World) (env : F → F)
    (envs : List (F → F)) (w : F) (s : World) :
    (callsAmid next (env :: envs) w s).1 =
      (next (env w) s).1 ::
        (callsAmid next envs (next (env w) s).2.1 (next (env w) s).2.2).1 := by
  simp [callsAmid]

theorem callsAmid_closed_errors {F R α : Type} (next : F → World → R × F × World)
    (watcher : F → Watcher α) (error : R → Option Error)
    (hstep : ∀ w s, (watcher w).pending = [] →
      error (next w s).1 = some (terminalError (watcher w).Err) ∧
        (watcher (next w s).2.1).pending = [] ∧
        (watcher (next w s).2.1).Err = (watcher w).Err)
    (envs : List (F → F)) :
    ∀ (w : F) (s : World),
      (∀ g ∈ envs, ∀ w1 : F, (watcher w1).pending = [] → (watcher (g w1)).pending = []) →
      (watcher w).pending = [] →
      ∀ r ∈ (callsAmid next envs w s).1, error r ≠ none := by
  induction envs with
  | nil =>
    intro w s _ _ r hr
    simp [callsAmid] at hr
  | cons g envs ih =>
    intro w s hg hw r hr
    rw [callsAmid_cons_fst] at hr
    have hgw : (watcher (g w)).pending = [] := hg g (List.mem_cons_self _ _) w hw
    obtain ⟨h1, h2, _⟩ := hstep (g w) s hgw
    rcases List.mem_cons.mp hr with rfl | hr
    · rw [h1]
      simp
    · exact ih _ _ (fun g1 hg1 => hg g1 (List.mem_cons_of_mem _ hg1)) h2 r hr

theorem calls_closed_terminal {F R α : Type} (next : F → World → R × F × World)
    (watcher : F → Watcher α) (error : R → Option Error)
    (hstep : ∀ w s, (watcher w).pending = [] →
      error (next w s).1 = some (terminalError (watcher w).Err) ∧
        (watcher (next w s).2.1).pending = [] ∧
        (watcher (next w s).2.1).Err = (watcher w).Err)
    (n : Nat) :
    ∀ (w : F) (s : World), (watcher w).pending = [] →
      (calls next n w s).1.map error =
        List.replicate n (some (terminalError (watcher w).Err)) := by
  induction n with
  | zero =>
    intro w s _
    simp [calls_zero]
  | succ n ih =>
    intro w s hw
    obtain ⟨h1, h2, h3⟩ := hstep w s hw
    rw [calls_succ, List.map_cons, h1, ih _ _ h2, h3, List.replicate_succ]

theorem permanentlyClosed_of_step {F R α : Type} (next : F → World → R × F × World)
    (watcher : F → Watcher α) (error : R → Option Error)
    (hstep : ∀ w s, (watcher w).pending = [] →
      error (next w s).1 = some (terminalError (watcher w).Err) ∧
        (watcher (next w s).2.1).pending = [] ∧
        (watcher (next w s).2.1).Err = (watcher w).Err) :
    permanentlyClosed next watcher error := by
  intro w s h
  obtain ⟨_, hw⟩ := Watcher.Changes_closed _ h
  obtain ⟨_, h2, h3⟩ := hstep w s hw
  refine ⟨?_, ?_⟩
  · intro envs henv
    rw [List.all_eq_true]
    intro r hr
    have := callsAmid_closed_errors next watcher error hstep envs _ _ henv h2 r hr
    cases he : error r with
    | none => exact absurd he this
    | some e => rfl
  · intro n
    rw [← h3]
    exact calls_closed_terminal next watcher error hstep n _ _ h2

/-- C10: closure is permanent for each of the eight channel-based variants: once a call of
`Next` has seen the channel closed, every later call of `Next` on the same facade returns an
error and never a successful result, whatever happens to the stored error in between, and
with the stored error unchanged it returns the same terminal error each time. -/
theorem closure_is_permanent :
    permanentlyClosed srvNotifyWatcher.Next (fun w => w.watcher) (fun r => r) ∧
    permanentlyClosed srvStringsWatcher.Next (fun w => w.watcher) (fun r => r.2) ∧
    permanentlyClosed srvRelationUnitsWatcher.Next (fun w => w.watcher) (fun r => r.2) ∧
    permanentlyClosed srvRemoteApplicationWatcher.Next (fun w => w.watcher) (fun r => r.2) ∧
    permanentlyClosed srvRemoteRelationsWatcher.Next (fun w => w.watcher) (fun r => r.2) ∧
    permanentlyClosed srvMachineStorageIdsWatcher.Next (fun w => w.watcher) (fun r => r.2) ∧
    permanentlyClosed srvEntitiesWatcher.Next (fun w => w.watcher.toStringsWatcher)
      (fun r => r.2) ∧
    permanentlyClosed srvMigrationStatusWatcher.Next (fun w => w.watcher) (fun r => r.2) := by
  refine ⟨?_, ?_, ?_, ?_, ?_, ?_, ?_, ?_⟩ <;>
    apply permanentlyClosed_of_step <;>
    intro w s h <;>
    simp only [srvNotifyWatcher.Next, srvStringsWatcher.Next, srvRelationUnitsWatcher.Next,
      srvRemoteApplicationWatcher.Next, srvRemoteRelationsWatcher.Next,
      srvMachineStorageIdsWatcher.Next, srvEntitiesWatcher.Next,
      srvMigrationStatusWatcher.Next, Watcher.Changes, h, Watcher.Err, terminalError] <;>
    split <;> simp [*]

/-- C10, at a concrete input: a strings facade sees its channel closed with no stored error;
of the two later calls, before the second of which the backing source stores the error `boom`,
both return an error, and three later calls with nothing stored return `ErrStoppedWatcher`
each time. -/
theorem closure_is_permanent_witness :
    ((callsAmid srvStringsWatcher.Next
        [fun w => w, fun w => { w with watcher := { w.watcher with err := some (.New "boom") } }]
        ((sampleStringsFacade { pending := [], err := none }).Next emptyWorld).2.1
        ((sampleStringsFacade { pending := [], err := none }).Next emptyWorld).2.2).1.all
      fun r => r.2.isSome) = true ∧
    (calls srvStringsWatcher.Next 3
        ((sampleStringsFacade { pending := [], err := none }).Next emptyWorld).2.1
        ((sampleStringsFacade { pending := [], err := none }).Next emptyWorld).2.2).1.map
      (fun r => r.2) =
      [some .ErrStoppedWatcher, some .ErrStoppedWatcher, some .ErrStoppedWatcher] :=
  ⟨(closure_is_permanent.2.1 (sampleStringsFacade { pending := [], err := none }) emptyWorld
      rfl).1
      [fun w => w, fun w => { w with watcher := { w.watcher with err := some (.New "boom") } }]
      (by
        intro g hg w1 hw1
        simp only [List.mem_cons, List.mem_singleton, List.not_mem_nil, or_false] at hg
        rcases hg with rfl | rfl
        · exact hw1
        · exact hw1),
   (closure_is_permanent.2.1 (sampleStringsFacade { pending := [], err := none }) emptyWorld
      rfl).2 3⟩

/-! ### Failures of the injected functions -/

theorem srvMachineStorageIdsWatcher.Next_on_value (w : srvMachineStorageIdsWatcher) (s : World)
    (v : List String) (rest : List (List String)) (h : w.watcher.pending = v :: rest) :
    w.Next s =
      (match w.parser v with
        | .error err => (({} : MachineStorageIdsWatchResult), some err)
        | .ok changes => ({ Changes := changes }, none),
       { w with watcher := { w.watcher with pending := rest,
                                              received := w.watcher.received + 1 } },
       s.record (Call.parser v)) := by
  simp only [srvMachineStorageIdsWatcher.Next, Watcher.Changes, h]
  cases w.parser v <;> rfl

/-- C11: for `srvMachineStorageIdsWatcher`, if the channel delivers `s1` and then `s2`, and the
injected parser fails on `s1` with `e` and succeeds on `s2` with `p2`, then the first `Next`
returns the empty result with the error `e` and the second returns `Changes = p2` with no
error. The failing call takes exactly `s1` off the channel (what is pending afterwards starts
with `s2`), leaves the stored error of the watcher as it was, and makes no call but the one
to the parser: the registry is as before, nothing is stopped or disposed. -/
theorem parser_failure_consumes_one_event (w : srvMachineStorageIdsWatcher) (s : World)
    (s1 s2 : List String) (rest : List (List String)) (e : Error) (p2 : List MachineStorageId)
    (hq : w.watcher.pending = s1 :: s2 :: rest) (h1 : w.parser s1 = .error e)
    (h2 : w.parser s2 = .ok p2) :
    (w.Next s).1 = ({}, some e) ∧
    ((w.Next s).2.1.Next (w.Next s).2.2).1 = ({ Changes := p2 }, none) ∧
    (calls srvMachineStorageIdsWatcher.Next 2 w s).1 =
      [({}, some e), ({ Changes := p2 }, none)] ∧
    (w.Next s).2.1.watcher.pending = s2 :: rest ∧
    (w.Next s).2.1.watcher.err = w.watcher.err ∧
    (w.Next s).2.1.watcherCommon.id = w.watcherCommon.id ∧
    (w.Next s).2.2.resources = s.resources ∧
    (w.Next s).2.2.calls = s.calls ++ [Call.parser s1] := by
  have hn := srvMachineStorageIdsWatcher.Next_on_value w s s1 (s2 :: rest) hq
  rw [h1] at hn
  have hn2 := srvMachineStorageIdsWatcher.Next_on_value (w.Next s).2.1 (w.Next s).2.2 s2 rest
    (by rw [hn])
  have hp : (w.Next s).2.1.parser = w.parser := by rw [hn]
  rw [hp, h2] at hn2
  refine ⟨by rw [hn], by rw [hn2], ?_, by rw [hn], by rw [hn], by rw [hn], by rw [hn]; rfl,
    by rw [hn]; rfl⟩
  rw [calls_succ, calls_succ, calls_zero, hn2, hn]

/-- C11, at a concrete input: the channel delivers `["bad"]` and then `["7"]`; the first call
fails with the parser's error, the second returns the parsed id, and `["7"]` is what is left
pending after the first call. -/
theorem parser_failure_consumes_one_event_witness :
    ((sampleStorageFacade { pending := [["bad"], ["7"]], err := none }).Next emptyWorld).1 =
        ({ Changes := [] }, some (.New "invalid volume attachment id")) ∧
    (((sampleStorageFacade { pending := [["bad"], ["7"]], err := none }).Next
        emptyWorld).2.1.Next
      ((sampleStorageFacade { pending := [["bad"], ["7"]], err := none }).Next
        emptyWorld).2.2).1 = ({ Changes := [{ MachineId := "0", StorageId := "7" }] }, none) ∧
    ((sampleStorageFacade { pending := [["bad"], ["7"]], err := none }).Next
        emptyWorld).2.1.watcher.pending = [["7"]] ∧
    ((sampleStorageFacade { pending := [["bad"], ["7"]], err := none }).Next
        emptyWorld).2.2.calls = [Call.parser ["bad"]] :=
  have h := parser_failure_consumes_one_event
    (sampleStorageFacade { pending := [["bad"], ["7"]], err := none }) emptyWorld
    ["bad"] ["7"] [] (.New "invalid volume attachment id")
    [{ MachineId := "0", StorageId := "7" }] rfl rfl rfl
  ⟨h.1, h.2.1, h.2.2.2.1, h.2.2.2.2.2.2.2⟩

/-- C12, the code at the failing input: the channel of a machine-storage-ids facade delivers
`["bad"]`, on which the parser fails with the error `invalid volume attachment id`; `Next`
returns that very error with the empty result, and its message is the parser's message, with
no annotation in front. -/
theorem parser_error_is_returned_unannotated :
    ((sampleStorageFacade { pending := [["bad"]], err := none }).Next emptyWorld).1 =
        ({ Changes := [] }, some (.New "invalid volume attachment id")) ∧
    sampleParser ["bad"] = .error (.New "invalid volume attachment id") ∧
    (Error.New "invalid volume attachment id").Message = "invalid volume attachment id" :=
  ⟨rfl, rfl, rfl⟩

/-- C13, counterexample: the mapping function fails on the delivered payload `["x"]` with
`e`, the error `no such entity` traced (`errors.Trace`). `Next` returns `e` annotated
`cannot map changes`, and the cause of that error is the error `no such entity`, which `e`
wraps: it is not `e`. -/
theorem entities_error_cause_counterexample :
    (srvEntitiesWatcher.Next
        { watcherCommon := newWatcherCommon (sampleContext "1" unitAgent),
          watcher := { toStringsWatcher := { pending := [["x"]], err := none },
                       MapChanges := fun _ => .error (.Trace (.New "no such entity")) } }
        emptyWorld).1.2 =
      some (.Annotate (.Trace (.New "no such entity")) "cannot map changes") ∧
    (Error.Annotate (.Trace (.New "no such entity")) "cannot map changes").Cause =
      .New "no such entity" ∧
    (Error.Annotate (.Trace (.New "no such entity")) "cannot map changes").Cause ≠
      .Trace (.New "no such entity") := by
  refine ⟨rfl, rfl, by decide⟩

/-- C13, as amended: for `srvEntitiesWatcher.Next` on a delivered payload `v`: if
`MapChanges v` succeeds with `m`, `Next` returns `Changes = m` and no error; if it fails with
`e`, `Next` returns the empty result and the error `e` annotated `cannot map changes`, whose
message is `cannot map changes: ` followed by the message of `e` and whose cause is the cause
of `e`, which is `e` itself when `e` wraps no other error. In both cases `MapChanges` is
called once, on `v`; on a closed channel it is not called. -/
theorem entities_next_maps_each_payload (w : srvEntitiesWatcher) (s : World) :
    (∀ v m, w.watcher.toStringsWatcher.Changes.1 = some v → w.watcher.MapChanges v = .ok m →
      (w.Next s).1 = ({ Changes := m }, none) ∧
      (w.Next s).2.2.calls = s.calls ++ [Call.MapChanges v]) ∧
    (∀ v e, w.watcher.toStringsWatcher.Changes.1 = some v → w.watcher.MapChanges v = .error e →
      (w.Next s).1 = ({}, some (Error.Annotate e "cannot map changes")) ∧
      (Error.Annotate e "cannot map changes").Message = "cannot map changes: " ++ e.Message ∧
      (Error.Annotate e "cannot map changes").Cause = e.Cause ∧
      (e.Cause = e → (Error.Annotate e "cannot map changes").Cause = e) ∧
      (w.Next s).2.2.calls = s.calls ++ [Call.MapChanges v]) ∧
    (w.watcher.toStringsWatcher.Changes.1 = none → (w.Next s).2.2.calls = s.calls) := by
  refine ⟨?_, ?_, ?_⟩
  · intro v m hv hm
    obtain ⟨rest, _, hc⟩ := Watcher.Changes_delivered _ v hv
    simp [srvEntitiesWatcher.Next, hc, hm, World.record]
  · intro v e hv he
    obtain ⟨rest, _, hc⟩ := Watcher.Changes_delivered _ v hv
    simp [srvEntitiesWatcher.Next, hc, he, World.record, Error.Message, Error.Cause]
  · intro hv
    obtain ⟨hc, _⟩ := Watcher.Changes_closed _ hv
    simp only [srvEntitiesWatcher.Next, hc]

/-- C13 as amended, at a concrete input: the mapping function fails with `no such entity` on
the delivered payload `["x"]`; `Next` returns the empty result with an error whose message is
`cannot map changes: no such entity` and whose cause is the error of the mapping function,
and one call of `MapChanges` is recorded. -/
theorem entities_next_maps_each_payload_witness :
    (srvEntitiesWatcher.Next
        { watcherCommon := newWatcherCommon (sampleContext "1" unitAgent),
          watcher := { toStringsWatcher := { pending := [["x"]], err := none },
                       MapChanges := fun _ => .error (.New "no such entity") } }
        emptyWorld).1 =
      ({ Changes := [] }, some (.Annotate (.New "no such entity") "cannot map changes")) ∧
    (Error.Annotate (.New "no such entity") "cannot map changes").Message =
      "cannot map changes: no such entity" ∧
    (Error.Annotate (.New "no such entity") "cannot map changes").Cause =
      .New "no such entity" ∧
    (srvEntitiesWatcher.Next
        { watcherCommon := newWatcherCommon (sampleContext "1" unitAgent),
          watcher := { toStringsWatcher := { pending := [["x"]], err := none },
                       MapChanges := fun _ => .error (.New "no such entity") } }
        emptyWorld).2.2.calls = [Call.MapChanges ["x"]] :=
  have h := (entities_next_maps_each_payload
    { watcherCommon := newWatcherCommon (sampleContext "1" unitAgent),
      watcher := { toStringsWatcher := { pending := [["x"]], err := none },
                   MapChanges := fun _ => .error (.New "no such entity") } }
    emptyWorld).2.1 ["x"] (.New "no such entity") rfl rfl
  ⟨h.1, by decide, h.2.2.2.1 rfl, h.2.2.2.2⟩

/-! ### The all-watcher -/

/-- C14: `SrvAllWatcher.Next` returns what `Multiwatcher.Next` returns: for its result
`(deltas, err)` the facade returns `AllWatcherNextResults{Deltas: deltas}`, the same list,
and the same `err`, after one call of the aggregator; and the two names `AllWatcher` and
`AllModelWatcher` are registered with one constructor, so that they give the same facade,
with the same `Next`. -/
theorem all_watcher_next_is_verbatim (aw : SrvAllWatcher) (s : World) :
    (∀ deltas err, aw.watcher.Next.1 = (deltas, err) →
      (aw.Next s).1 = ({ Deltas := deltas }, err)) ∧
    (aw.Next s).1.1.Deltas = aw.watcher.Next.1.1 ∧
    (aw.Next s).1.2 = aw.watcher.Next.1.2 ∧
    (aw.Next s).2.1.watcher = aw.watcher.Next.2 ∧
    (aw.Next s).2.2.calls = s.calls ++ [Call.MultiwatcherNext] ∧
    (∀ (storagecommon : Storagecommon) (context : Context) (s1 : World),
      factory storagecommon .AllWatcher context s1 =
        factory storagecommon .AllModelWatcher context s1) := by
  refine ⟨?_, rfl, rfl, rfl, rfl, fun _ _ _ => rfl⟩
  intro deltas err h
  simp only [SrvAllWatcher.Next]
  rw [show aw.watcher.Next = ((deltas, err), aw.watcher.Next.2) from by rw [← h]]

/-- C14, at a concrete input: the aggregator returns two deltas and no error, and the facade
returns the same two deltas in the same order with no error. -/
theorem all_watcher_next_is_verbatim_witness :
    ((sampleAllFacade
        { outcomes := [([{ Removed := false, Entity := "machine-0" },
                         { Removed := true, Entity := "unit-a" }], none)],
          last := ([], none) }).Next emptyWorld).1 =
      ({ Deltas := [{ Removed := false, Entity := "machine-0" },
                    { Removed := true, Entity := "unit-a" }] }, none) :=
  (all_watcher_next_is_verbatim
    (sampleAllFacade
      { outcomes := [([{ Removed := false, Entity := "machine-0" },
                       { Removed := true, Entity := "unit-a" }], none)],
        last := ([], none) }) emptyWorld).1 _ _ rfl

/-- C15, counterexample: an aggregator that has stopped answers `Next` with its own error,
`shared state watcher was stopped`, and the facade returns that error, not
`ErrStoppedWatcher`; and when an aggregator returns a delta together with an error, the
facade returns the delta with the error, not the empty result. -/
theorem all_watcher_terminal_step_counterexample :
    ((sampleAllFacade
        { outcomes := [], last := ([], some (.New "shared state watcher was stopped")) }).Next
      emptyWorld).1.2 = some (.New "shared state watcher was stopped") ∧
    ((sampleAllFacade
        { outcomes := [], last := ([], some (.New "shared state watcher was stopped")) }).Next
      emptyWorld).1.2 ≠ some .ErrStoppedWatcher ∧
    ((sampleAllFacade
        { outcomes := [([{ Removed := false, Entity := "machine-0" }], some (.New "boom"))],
          last := ([], none) }).Next emptyWorld).1.2 = some (.New "boom") ∧
    ((sampleAllFacade
        { outcomes := [([{ Removed := false, Entity := "machine-0" }], some (.New "boom"))],
          last := ([], none) }).Next emptyWorld).1.1 ≠ {} := by
  refine ⟨rfl, by decide, rfl, by decide⟩

/-- C15, as amended: `SrvAllWatcher.Next` has no terminal step of its own. Whenever it returns
a non-nil error, that error is the one `Multiwatcher.Next` returned, unchanged (it is
`ErrStoppedWatcher` only if the aggregator returned that), and the result carries the deltas
the aggregator returned with it, so it is the empty result whenever the aggregator returned
no deltas with its error. -/
theorem all_watcher_error_is_the_aggregators (aw : SrvAllWatcher) (s : World) (e : Error)
    (h : (aw.Next s).1.2 = some e) :
    aw.watcher.Next.1.2 = some e ∧
    (aw.Next s).1.1.Deltas = aw.watcher.Next.1.1 ∧
    (aw.watcher.Next.1.1 = [] → (aw.Next s).1.1 = {}) ∧
    (e = .ErrStoppedWatcher ↔ aw.watcher.Next.1.2 = some .ErrStoppedWatcher) := by
  have he : aw.watcher.Next.1.2 = some e := h
  refine ⟨he, rfl, ?_, ?_⟩
  · intro hd
    show ({ Deltas := aw.watcher.Next.1.1 } : AllWatcherNextResults) = {}
    rw [hd]
  · rw [he]
    constructor
    · intro h1
      rw [h1]
    · intro h1
      exact (Option.some.inj h1)

/-- C15 as amended, at a concrete input: the stopped aggregator returns no deltas and its own
error; the facade returns the empty result with that error. -/
theorem all_watcher_error_is_the_aggregators_witness :
    (Multiwatcher.Next
        { outcomes := [], last := ([], some (.New "shared state watcher was stopped")) }).1.2 =
      some (.New "shared state watcher was stopped") ∧
    ((sampleAllFacade
        { outcomes := [], last := ([], some (.New "shared state watcher was stopped")) }).Next
      emptyWorld).1.1 = {} :=
  have h := all_watcher_error_is_the_aggregators
    (sampleAllFacade
      { outcomes := [], last := ([], some (.New "shared state watcher was stopped")) })
    emptyWorld (.New "shared state watcher was stopped") rfl
  ⟨h.1, h.2.2.1 rfl⟩

/-! ### Stopping a facade -/

theorem factory_ok_watcherCommon (storagecommon : Storagecommon) (name : FacadeName)
    (context : Context) (s : World) (f : Facade)
    (h : (factory storagecommon name context s).1 = .ok f) :
    f.watcherCommon = newWatcherCommon context := by
  cases name <;>
    simp only [factory, NewAllWatcher, newNotifyWatcher, newStringsWatcher,
      newRelationUnitsWatcher, newRemoteApplicationWatcher, newRemoteRelationsWatcher,
      newVolumeAttachmentsWatcher, newFilesystemAttachmentsWatcher,
      newMachineStorageIdsWatcher, newEntitiesWatcher, newMigrationStatusWatcher] at h <;>
    (repeat' split at h) <;>
    simp [asFacade] at h <;>
    subst h <;>
    rfl

/-- C16: for a facade of any variant built by its constructor from a context, `Stop` on a
world `s1` is the registry's `Stop` of the id of the context applied to the world left by the
dispose callback of the context: the callback runs once, before the registry is asked, and
the registry is asked once, for that id. `Stop` returns the error the registry returned, and
the world it leaves is the disposed and stopped one whether or not that error is nil. When
the callback itself makes no recorded call, the calls `Stop` adds to the log are the dispose
and then the registry's stop of the id. -/
theorem stop_disposes_then_stops_resource (storagecommon : Storagecommon) (name : FacadeName)
    (context : Context) (s : World) (f : Facade)
    (h : (factory storagecommon name context s).1 = .ok f) (s1 : World) :
    f.Stop s1 = (context.Dispose (s1.record Call.Dispose)).Stop context.ID ∧
    (f.Stop s1).1 = ((context.Dispose (s1.record Call.Dispose)).Stop context.ID).1 ∧
    (f.Stop s1).1 = (context.Dispose (s1.record Call.Dispose)).stopError context.ID ∧
    ((∀ x : World, (context.Dispose x).calls = x.calls) →
      (f.Stop s1).2.calls = s1.calls ++ [Call.Dispose, Call.ResourcesStop context.ID]) := by
  have hw := factory_ok_watcherCommon storagecommon name context s f h
  have hs : f.Stop s1 = (context.Dispose (s1.record Call.Dispose)).Stop context.ID := by
    simp only [Facade.Stop, watcherCommon.Stop, hw, newWatcherCommon]
  refine ⟨hs, by rw [hs], by rw [hs]; rfl, ?_⟩
  intro hd
  rw [hs]
  simp [World.Stop, hd, World.record]

/-- C16, at a concrete input: a unit agent builds the strings facade of id `1` and stops it in
a world whose registry fails to stop; `Stop` returns the error of the registry, the log reads
dispose, then stop of id `1`, and the registry no longer holds the id. -/
theorem stop_disposes_then_stops_resource_witness :
    (Facade.Stop (.srvStringsWatcher (sampleStringsFacade sampleStrings)) failingStopWorld).1 =
        some (.New "stop failed") ∧
    (Facade.Stop (.srvStringsWatcher (sampleStringsFacade sampleStrings))
        failingStopWorld).2.calls = [Call.Dispose, Call.ResourcesStop "1"] ∧
    (Facade.Stop (.srvStringsWatcher (sampleStringsFacade sampleStrings))
        failingStopWorld).2.Count = 1 :=
  have h := stop_disposes_then_stops_resource sampleParsers .StringsWatcher
    (sampleContext "1" unitAgent) sampleWorld
    (.srvStringsWatcher (sampleStringsFacade sampleStrings)) rfl failingStopWorld
  ⟨h.2.2.1, h.2.2.2 (fun _ => rfl), by rw [h.1]; rfl⟩

/-! ### The migration-status watcher -/

theorem foldl_append_strings (sect : List HostPort) (acc : List String) :
    sect.foldl (fun out hostport => out ++ [hostport.String]) acc =
      acc ++ sect.map HostPort.String := by
  induction sect generalizing acc with
  | nil => simp
  | cons hp rest ih => simp [List.foldl_cons, ih]

theorem foldl_sections_flatten (hostports : List (List HostPort)) (acc : List String) :
    hostports.foldl
        (fun out sect => sect.foldl (fun out hostport => out ++ [hostport.String]) out) acc =
      acc ++ hostports.flatten.map HostPort.String := by
  induction hostports generalizing acc with
  | nil => simp
  | cons sect rest ih =>
    rw [List.foldl_cons, foldl_append_strings, ih, List.flatten_cons, List.map_append,
      List.append_assoc]

/-- C17: for `srvMigrationStatusWatcher.Next` after a delivered signal, if `LatestMigration`
fails with a not-found error, `Next` returns no error and a status whose `Phase` is the string
form of the phase `NONE` and whose other fields are empty; the one call the log gains is
`LatestMigration`: neither `APIHostPorts` nor `ControllerConfig` is queried. -/
theorem no_migration_gives_phase_none (w : srvMigrationStatusWatcher) (s : World) (e : Error)
    (hsig : w.watcher.Changes.1 = some ()) (hm : w.st.LatestMigration = .error e)
    (hnf : IsNotFound (some e) = true) :
    (w.Next s).1.2 = none ∧
    (w.Next s).1.1.Phase = Phase.NONE.String ∧
    (w.Next s).1.1.MigrationId = "" ∧
    (w.Next s).1.1.Attempt = 0 ∧
    (w.Next s).1.1.SourceAPIAddrs = [] ∧
    (w.Next s).1.1.SourceCACert = "" ∧
    (w.Next s).1.1.TargetAPIAddrs = [] ∧
    (w.Next s).1.1.TargetCACert = "" ∧
    (w.Next s).2.2.calls = s.calls ++ [Call.LatestMigration] := by
  obtain ⟨rest, _, hc⟩ := Watcher.Changes_delivered _ () hsig
  simp [srvMigrationStatusWatcher.Next, hc, hm, hnf, World.record]

/-- C17, at a concrete input: the backend has no recorded migration (its lookup fails with a
not-found error); `Next` returns the status with only the phase set, and one query is
recorded. -/
theorem no_migration_gives_phase_none_witness :
    ((sampleMigrationFacade sampleBackend).Next emptyWorld).1 =
        ({ Phase := Phase.NONE.String }, none) ∧
    ((sampleMigrationFacade sampleBackend).Next emptyWorld).2.2.calls =
        [Call.LatestMigration] :=
  have h := no_migration_gives_phase_none (sampleMigrationFacade sampleBackend) emptyWorld
    (.NotFound "migration not found") rfl rfl rfl
  ⟨rfl, h.2.2.2.2.2.2.2.2⟩

/-- C18: after a delivered signal, each failing sub-query of `srvMigrationStatusWatcher.Next`
aborts the call with the empty status and its own annotation, the first failing step winning:
a `LatestMigration` failure `e` that is not not-found gives `migration lookup: e`; else a
`Phase()` failure gives `retrieving migration phase: e`; else an `APIHostPorts` failure gives
`retrieving source addresses: e`; else a failure `e` of the controller-CA-cert step gives
`retrieving source CA cert: e`; else a `TargetInfo()` failure gives
`retrieving target info: e`. -/
theorem migration_failures_are_annotated (w : srvMigrationStatusWatcher) (s : World)
    (hsig : w.watcher.Changes.1 = some ()) :
    (∀ e, w.st.LatestMigration = .error e → IsNotFound (some e) = false →
      (w.Next s).1 = ({}, some (Error.Annotate e "migration lookup")) ∧
      (Error.Annotate e "migration lookup").Message = "migration lookup: " ++ e.Message) ∧
    (∀ mig e, w.st.LatestMigration = .ok mig → mig.Phase = .error e →
      (w.Next s).1 = ({}, some (Error.Annotate e "retrieving migration phase")) ∧
      (Error.Annotate e "retrieving migration phase").Message =
        "retrieving migration phase: " ++ e.Message) ∧
    (∀ mig phase e, w.st.LatestMigration = .ok mig → mig.Phase = .ok phase →
      w.st.APIHostPorts = .error e →
      (w.Next s).1 = ({}, some (Error.Annotate (Error.Trace e) "retrieving source addresses")) ∧
      (Error.Annotate (Error.Trace e) "retrieving source addresses").Message =
        "retrieving source addresses: " ++ e.Message) ∧
    (∀ mig phase hostports s1 cacert e, w.st.LatestMigration = .ok mig →
      mig.Phase = .ok phase → w.st.APIHostPorts = .ok hostports →
      (getControllerCACert w.st s1).1 = (cacert, some e) →
      (w.Next s).1 = ({}, some (Error.Annotate e "retrieving source CA cert")) ∧
      (Error.Annotate e "retrieving source CA cert").Message =
        "retrieving source CA cert: " ++ e.Message) ∧
    (∀ mig phase hostports cfg cacert e, w.st.LatestMigration = .ok mig →
      mig.Phase = .ok phase → w.st.APIHostPorts = .ok hostports →
      w.st.ControllerConfig = .ok cfg → cfg.CACert = some cacert →
      mig.TargetInfo = .error e →
      (w.Next s).1 = ({}, some (Error.Annotate e "retrieving target info")) ∧
      (Error.Annotate e "retrieving target info").Message =
        "retrieving target info: " ++ e.Message) := by
  obtain ⟨rest, _, hc⟩ := Watcher.Changes_delivered _ () hsig
  refine ⟨?_, ?_, ?_, ?_, ?_⟩
  · intro e hm hnf
    simp [srvMigrationStatusWatcher.Next, hc, hm, hnf, Error.Message]
  · intro mig e hm hp
    simp [srvMigrationStatusWatcher.Next, hc, hm, hp, Error.Message]
  · intro mig phase e hm hp hh
    simp [srvMigrationStatusWatcher.Next, hc, hm, hp, hh,
      srvMigrationStatusWatcher.getLocalHostPorts, Error.Message]
  · intro mig phase hostports s1 cacert e hm hp hh hca
    refine ⟨?_, by simp [Error.Message]⟩
    cases hcfg : w.st.ControllerConfig with
    | error e1 =>
      simp only [getControllerCACert, hcfg] at hca
      cases hca
      simp [srvMigrationStatusWatcher.Next, hc, hm, hp, hh,
        srvMigrationStatusWatcher.getLocalHostPorts, getControllerCACert, hcfg]
    | ok cfg =>
      cases hcert : cfg.CACert with
      | none =>
        simp only [getControllerCACert, hcfg, hcert] at hca
        cases hca
        simp [srvMigrationStatusWatcher.Next, hc, hm, hp, hh,
          srvMigrationStatusWatcher.getLocalHostPorts, getControllerCACert, hcfg, hcert]
      | some c =>
        simp [getControllerCACert, hcfg, hcert] at hca
  · intro mig phase hostports cfg cacert e hm hp hh hcfg hcert ht
    simp [srvMigrationStatusWatcher.Next, hc, hm, hp, hh, hcfg, hcert, ht,
      srvMigrationStatusWatcher.getLocalHostPorts, getControllerCACert, Error.Message]

/-- C18, at concrete inputs: with a migration whose phase cannot be read the call fails with
`retrieving migration phase: connection lost` and the empty status, although the controller
configuration of that backend is fine; with a configuration lacking the CA certificate it
fails with the annotation of the CA-cert step. -/
theorem migration_failures_are_annotated_witness :
    ((sampleMigrationFacade phaseFailingBackend).Next emptyWorld).1 =
        ({}, some (.Annotate (.New "connection lost") "retrieving migration phase")) ∧
    (Error.Annotate (.New "connection lost") "retrieving migration phase").Message =
        "retrieving migration phase: connection lost" ∧
    ((sampleMigrationFacade noCACertBackend).Next emptyWorld).1 =
        ({}, some (.Annotate (.New "missing CA cert for controller model")
          "retrieving source CA cert")) :=
  have h := migration_failures_are_annotated (sampleMigrationFacade phaseFailingBackend)
    emptyWorld rfl
  have h2 := migration_failures_are_annotated (sampleMigrationFacade noCACertBackend)
    emptyWorld rfl
  ⟨(h.2.1 _ (.New "connection lost") rfl rfl).1, by decide,
   (h2.2.2.2.1 sampleMigration .REAP _ emptyWorld "" _ rfl rfl rfl rfl).1⟩

/-- C19: for `srvMigrationStatusWatcher.Next` after a delivered signal, when every sub-query
succeeds, the status returned has the id and the attempt of the migration, the string form of
its phase, the strings of the API host-ports of all sections in order as source addresses,
the CA certificate of the controller configuration, and the addresses and the CA certificate
of the target, with no error. -/
theorem migration_status_is_assembled (w : srvMigrationStatusWatcher) (s : World)
    (mig : ModelMigration) (phase : Phase) (hostports : List (List HostPort)) (cfg : Config)
    (cacert : String) (target : TargetInfo)
    (hsig : w.watcher.Changes.1 = some ()) (hm : w.st.LatestMigration = .ok mig)
    (hp : mig.Phase = .ok phase) (hh : w.st.APIHostPorts = .ok hostports)
    (hcfg : w.st.ControllerConfig = .ok cfg) (hcert : cfg.CACert = some cacert)
    (ht : mig.TargetInfo = .ok target) :
    (w.Next s).1 =
      ({ MigrationId := mig.Id,
         Attempt := mig.Attempt,
         Phase := phase.String,
         SourceAPIAddrs := hostports.flatten.map HostPort.String,
         SourceCACert := cacert,
         TargetAPIAddrs := target.Addrs,
         TargetCACert := target.CACert }, none) := by
  obtain ⟨rest, _, hc⟩ := Watcher.Changes_delivered _ () hsig
  have hf := foldl_sections_flatten hostports []
  simp only [List.nil_append] at hf
  simp only [srvMigrationStatusWatcher.Next, hc, hm, hp, hh, hcfg, hcert, ht,
    srvMigrationStatusWatcher.getLocalHostPorts, getControllerCACert, hf]

/-- C19, the example of the specification: migration `mig-1`, attempt 3, phase `REAP`, two
host-port sections, target `["10.0.0.5:17070"]` with CA certificate `CERT`. -/
theorem migration_status_is_assembled_witness :
    ((sampleMigrationFacade sampleMigrationBackend).Next emptyWorld).1 =
      ({ MigrationId := "mig-1",
         Attempt := 3,
         Phase := "REAP",
         SourceAPIAddrs := ["10.0.0.1:17070", "10.0.0.2:17070", "192.168.0.1:17070"],
         SourceCACert := "SOURCE-CERT",
         TargetAPIAddrs := ["10.0.0.5:17070"],
         TargetCACert := "CERT" }, none) :=
  (migration_status_is_assembled (sampleMigrationFacade sampleMigrationBackend) emptyWorld
    sampleMigration .REAP
    [[{ Value := "10.0.0.1", Port := 17070 }, { Value := "10.0.0.2", Port := 17070 }],
     [{ Value := "192.168.0.1", Port := 17070 }]]
    { CACert := some "SOURCE-CERT" } "SOURCE-CERT"
    { Addrs := ["10.0.0.5:17070"], CACert := "CERT" } rfl rfl rfl rfl rfl rfl rfl).trans
    (by decide)

/-- C20, counterexample: with a recorded migration and a controller configuration that has no
CA certificate, the error `Next` returns has the message
`retrieving source CA cert: missing CA cert for controller model`, which is not the message
`missing CA cert for controller model`: the error carries the annotation. -/
theorem missing_ca_cert_unannotated_counterexample :
    (((sampleMigrationFacade noCACertBackend).Next emptyWorld).1.2.map Error.Message) =
        some "retrieving source CA cert: missing CA cert for controller model" ∧
    (((sampleMigrationFacade noCACertBackend).Next emptyWorld).1.2.map Error.Message) ≠
        some "missing CA cert for controller model" := by
  decide

/-- C20, as amended: given a recorded migration whose phase and the API host-ports are read
without error, and a controller configuration that has no CA certificate, `Next` fails with
the error `missing CA cert for controller model` annotated `retrieving source CA cert`: its
message is `retrieving source CA cert: missing CA cert for controller model` and its cause is
the error `missing CA cert for controller model`; a failure `e` of the controller
configuration lookup carries the same annotation. -/
theorem missing_ca_cert_is_annotated (w : srvMigrationStatusWatcher) (s : World)
    (mig : ModelMigration) (phase : Phase) (hostports : List (List HostPort))
    (hsig : w.watcher.Changes.1 = some ()) (hm : w.st.LatestMigration = .ok mig)
    (hp : mig.Phase = .ok phase) (hh : w.st.APIHostPorts = .ok hostports) :
    (∀ cfg, w.st.ControllerConfig = .ok cfg → cfg.CACert = none →
      (w.Next s).1 = ({}, some (Error.Annotate (Error.New "missing CA cert for controller model")
        "retrieving source CA cert")) ∧
      (Error.Annotate (Error.New "missing CA cert for controller model")
        "retrieving source CA cert").Message =
          "retrieving source CA cert: missing CA cert for controller model" ∧
      (Error.Annotate (Error.New "missing CA cert for controller model")
        "retrieving source CA cert").Cause = Error.New "missing CA cert for controller model" ∧
      (Error.New "missing CA cert for controller model").Message =
        "missing CA cert for controller model") ∧
    (∀ e, w.st.ControllerConfig = .error e →
      (w.Next s).1 = ({}, some (Error.Annotate (Error.Trace e) "retrieving source CA cert")) ∧
      (Error.Annotate (Error.Trace e) "retrieving source CA cert").Message =
        "retrieving source CA cert: " ++ e.Message) := by
  obtain ⟨rest, _, hc⟩ := Watcher.Changes_delivered _ () hsig
  refine ⟨?_, ?_⟩
  · intro cfg hcfg hcert
    refine ⟨?_, by decide, rfl, rfl⟩
    simp [srvMigrationStatusWatcher.Next, hc, hm, hp, hh, hcfg, hcert,
      srvMigrationStatusWatcher.getLocalHostPorts, getControllerCACert]
  · intro e hcfg
    simp [srvMigrationStatusWatcher.Next, hc, hm, hp, hh, hcfg,
      srvMigrationStatusWatcher.getLocalHostPorts, getControllerCACert, Error.Message]

/-- C20 as amended, at a concrete input: the backend of the counterexample. -/
theorem missing_ca_cert_is_annotated_witness :
    ((sampleMigrationFacade noCACertBackend).Next emptyWorld).1 =
      ({}, some (.Annotate (.New "missing CA cert for controller model")
        "retrieving source CA cert")) :=
  ((missing_ca_cert_is_annotated (sampleMigrationFacade noCACertBackend) emptyWorld
    sampleMigration .REAP
    [[{ Value := "10.0.0.1", Port := 17070 }, { Value := "10.0.0.2", Port := 17070 }],
     [{ Value := "192.168.0.1", Port := 17070 }]]
    rfl rfl rfl rfl).1 { CACert := none } rfl rfl).1

/-- C21, counterexample: `APIHostPorts` fails with `e`, the error `connection lost` traced
(`errors.Trace`). `getLocalHostPorts` returns nil with `e` traced once more, and the cause of
that error is the error `connection lost`, which `e` wraps: it is not `e`. -/
theorem getLocalHostPorts_error_cause_counterexample :
    ((sampleMigrationFacade
        { sampleMigrationBackend with
          APIHostPorts := .error (.Trace (.New "connection lost")) }).getLocalHostPorts
      emptyWorld).1 = ([], some (.Trace (.Trace (.New "connection lost")))) ∧
    (Error.Trace (.Trace (.New "connection lost"))).Cause = .New "connection lost" ∧
    (Error.Trace (.Trace (.New "connection lost"))).Cause ≠ .Trace (.New "connection lost") := by
  refine ⟨rfl, rfl, by decide⟩

/-- C21, as amended: `getLocalHostPorts` flattens the host-port sections: when `APIHostPorts`
returns the sections, the result is the list of `hostport.String()` of every host-port,
section after section and in the order within each section, with no error; its length is the
sum of the lengths of the sections, and the empty sections contribute nothing. When
`APIHostPorts` fails with `e`, the result is nil with the error `e` traced, whose cause is the
cause of `e`, which is `e` itself when `e` wraps no other error. -/
theorem getLocalHostPorts_flattens (w : srvMigrationStatusWatcher) (s : World) :
    (∀ hostports, w.st.APIHostPorts = .ok hostports →
      (w.getLocalHostPorts s).1 = (hostports.flatten.map HostPort.String, none) ∧
      (hostports.flatten.map HostPort.String).length = (hostports.map List.length).sum ∧
      hostports.flatten.map HostPort.String =
        (hostports.filter (fun sect => !sect.isEmpty)).flatten.map HostPort.String) ∧
    (∀ e, w.st.APIHostPorts = .error e →
      (w.getLocalHostPorts s).1 = ([], some (Error.Trace e)) ∧
      (Error.Trace e).Cause = e.Cause ∧
      (e.Cause = e → (Error.Trace e).Cause = e)) := by
  refine ⟨?_, ?_⟩
  · intro hostports hh
    have hf := foldl_sections_flatten hostports []
    simp only [List.nil_append] at hf
    refine ⟨?_, ?_, ?_⟩
    · simp only [srvMigrationStatusWatcher.getLocalHostPorts, hh, hf]
    · rw [List.length_map, List.length_flatten]
    · rw [List.flatten_filter_not_isEmpty]
  · intro e he
    refine ⟨?_, rfl, fun h => h⟩
    simp only [srvMigrationStatusWatcher.getLocalHostPorts, he]

/-- C21 as amended, at a concrete input: three sections, the middle one empty, give the three
address strings in order. -/
theorem getLocalHostPorts_flattens_witness :
    ((sampleMigrationFacade
        { sampleMigrationBackend with
          APIHostPorts := .ok [[{ Value := "10.0.0.1", Port := 17070 },
                                { Value := "10.0.0.2", Port := 17070 }], [],
                               [{ Value := "10.0.0.1", Port := 17070 }]] }).getLocalHostPorts
      emptyWorld).1 = (["10.0.0.1:17070", "10.0.0.2:17070", "10.0.0.1:17070"], none) :=
  ((getLocalHostPorts_flattens
    (sampleMigrationFacade
      { sampleMigrationBackend with
        APIHostPorts := .ok [[{ Value := "10.0.0.1", Port := 17070 },
                              { Value := "10.0.0.2", Port := 17070 }], [],
                             [{ Value := "10.0.0.1", Port := 17070 }]] })
    emptyWorld).1 _ rfl).1.trans (by decide)

/-- C22: given no recorded migration (the lookup of the latest migration fails with a
not-found error), `srvMigrationStatusWatcher.Next` on a delivered signal returns a status
whose `Phase` is the string `none`, all other fields empty, and no error. -/
theorem no_migration_phase_is_none_string (w : srvMigrationStatusWatcher) (s : World)
    (e : Error) (hsig : w.watcher.Changes.1 = some ())
    (hm : w.st.LatestMigration = .error e) (hnf : IsNotFound (some e) = true) :
    (w.Next s).1 = ({ Phase := "none" }, none) := by
  obtain ⟨rest, _, hc⟩ := Watcher.Changes_delivered _ () hsig
  simp [srvMigrationStatusWatcher.Next, hc, hm, hnf, Phase.String]

/-- C22, at a concrete input: the backend with no recorded migration. -/
theorem no_migration_phase_is_none_string_witness :
    ((sampleMigrationFacade sampleBackend).Next emptyWorld).1 =
      ({ MigrationId := "", Attempt := 0, Phase := "none", SourceAPIAddrs := [],
         SourceCACert := "", TargetAPIAddrs := [], TargetCACert := "" }, none) :=
  no_migration_phase_is_none_string (sampleMigrationFacade sampleBackend) emptyWorld
    (.NotFound "migration not found") rfl rfl rfl

/-- C28, counterexample: `ControllerConfig` fails with `e`, the error `db down` annotated
`reading config` (`errors.Annotate`). `getControllerCACert` returns the empty string with `e`
traced, and the cause of that error is the error `db down`, which `e` wraps: it is not
`e`. -/
theorem getControllerCACert_error_cause_counterexample :
    (getControllerCACert
        { sampleMigrationBackend with
          ControllerConfig := .error (.Annotate (.New "db down") "reading config") }
        emptyWorld).1 = ("", some (.Trace (.Annotate (.New "db down") "reading config"))) ∧
    (Error.Trace (.Annotate (.New "db down") "reading config")).Cause = .New "db down" ∧
    (Error.Trace (.Annotate (.New "db down") "reading config")).Cause ≠
      .Annotate (.New "db down") "reading config" := by
  refine ⟨rfl, rfl, by decide⟩

/-- C28, as amended: `getControllerCACert` succeeds if and only if `ControllerConfig` succeeds
and the configuration has a CA certificate, and then returns that certificate; if
`ControllerConfig` fails with `e` it returns the empty string and `e` traced, whose cause is
the cause of `e`, which is `e` itself when `e` wraps no other error; if the configuration has
no CA certificate it returns the empty string and an error whose message is
`missing CA cert for controller model`. -/
theorem getControllerCACert_cases (st : migrationBackend) (s : World) :
    ((getControllerCACert st s).1.2 = none ↔
      ∃ cfg cert, st.ControllerConfig = .ok cfg ∧ cfg.CACert = some cert) ∧
    (∀ cfg cert, st.ControllerConfig = .ok cfg → cfg.CACert = some cert →
      (getControllerCACert st s).1 = (cert, none)) ∧
    (∀ e, st.ControllerConfig = .error e →
      (getControllerCACert st s).1 = ("", some (Error.Trace e)) ∧
      (Error.Trace e).Cause = e.Cause ∧
      (e.Cause = e → (Error.Trace e).Cause = e)) ∧
    (∀ cfg, st.ControllerConfig = .ok cfg → cfg.CACert = none →
      (getControllerCACert st s).1 =
        ("", some (Error.New "missing CA cert for controller model")) ∧
      (Error.New "missing CA cert for controller model").Message =
        "missing CA cert for controller model") := by
  refine ⟨?_, ?_, ?_, ?_⟩
  · cases hcfg : st.ControllerConfig with
    | error e => simp [getControllerCACert, hcfg]
    | ok cfg =>
      cases hcert : cfg.CACert with
      | none => simp [getControllerCACert, hcfg, hcert]
      | some cert => simp [getControllerCACert, hcfg, hcert]
  · intro cfg cert hcfg hcert
    simp [getControllerCACert, hcfg, hcert]
  · intro e hcfg
    refine ⟨?_, rfl, fun h => h⟩
    simp [getControllerCACert, hcfg]
  · intro cfg hcfg hcert
    refine ⟨?_, rfl⟩
    simp [getControllerCACert, hcfg, hcert]

/-- C28 as amended, at concrete inputs: the certificate of the configuration is returned as it
is, and a configuration without one gives the error `missing CA cert for controller model`. -/
theorem getControllerCACert_cases_witness :
    (getControllerCACert sampleMigrationBackend emptyWorld).1 = ("SOURCE-CERT", none) ∧
    (getControllerCACert noCACertBackend emptyWorld).1 =
      ("", some (.New "missing CA cert for controller model")) :=
  ⟨(getControllerCACert_cases sampleMigrationBackend emptyWorld).2.1
      { CACert := some "SOURCE-CERT" } "SOURCE-CERT" rfl rfl,
   ((getControllerCACert_cases noCACertBackend emptyWorld).2.2.2
      { CACert := none } rfl rfl).1⟩

/-! ### The gate is passed once -/

theorem factory_congr_auth (storagecommon : Storagecommon) (name : FacadeName)
    (context : Context) (auth : Authorizer) (s : World)
    (h : specRequiredAuth name auth = specRequiredAuth name context.Auth) :
    factory storagecommon name { context with Auth := auth } s =
      factory storagecommon name context s := by
  cases name <;>
    simp only [specRequiredAuth] at h <;>
    simp only [factory, NewAllWatcher, newNotifyWatcher, newStringsWatcher,
      newRelationUnitsWatcher, newRemoteApplicationWatcher, newRemoteRelationsWatcher,
      newVolumeAttachmentsWatcher, newFilesystemAttachmentsWatcher,
      newMachineStorageIdsWatcher, newEntitiesWatcher, newMigrationStatusWatcher, isAgent, h,
      newWatcherCommon]

/-- C23: authorization is a one-time gate. For two contexts that differ only in their
authorizer and both pass the gate of a facade, the constructor builds one and the same facade
(it keeps nothing of the authorizer), so that `Next`, any number of sequential calls of
`Next`, and `Stop` return identical results on the same state; `Next` and `Stop` take the
facade and the state only, so that what the authorizer answers after construction has no
part in them. -/
theorem next_is_independent_of_authorizer (storagecommon : Storagecommon) (name : FacadeName)
    (context : Context) (auth : Authorizer) (s : World) (f₁ f₂ : Facade)
    (h₁ : specRequiredAuth name context.Auth = true) (h₂ : specRequiredAuth name auth = true)
    (hf₁ : (factory storagecommon name context s).1 = .ok f₁)
    (hf₂ : (factory storagecommon name { context with Auth := auth } s).1 = .ok f₂) :
    f₁ = f₂ ∧
    (∀ s1 : World, f₁.Next s1 = f₂.Next s1) ∧
    (∀ (n : Nat) (s1 : World), calls Facade.Next n f₁ s1 = calls Facade.Next n f₂ s1) ∧
    (∀ s1 : World, f₁.Stop s1 = f₂.Stop s1) := by
  have h := factory_congr_auth storagecommon name context auth s (by rw [h₁, h₂])
  rw [h, hf₁] at hf₂
  cases hf₂
  exact ⟨rfl, fun _ => rfl, fun _ _ => rfl, fun _ => rfl⟩

/-- C23, at a concrete input: a unit agent and a machine agent each build the strings facade
of id `1`; the first `Next` of either returns `Changes = ["unit-a"]`, and two calls return the
same list of results. -/
theorem next_is_independent_of_authorizer_witness :
    (Facade.Next (.srvStringsWatcher (sampleStringsFacade sampleStrings)) sampleWorld).1 =
        (.Strings { Changes := ["unit-a"] }, none) ∧
    (∀ s1 : World,
      Facade.Next (.srvStringsWatcher (sampleStringsFacade sampleStrings)) s1 =
        Facade.Next
          (.srvStringsWatcher
            { watcherCommon := newWatcherCommon (sampleContext "1" machineAgent),
              watcher := sampleStrings }) s1) :=
  ⟨rfl,
   (next_is_independent_of_authorizer sampleParsers .StringsWatcher
      (sampleContext "1" unitAgent) machineAgent sampleWorld
      (.srvStringsWatcher (sampleStringsFacade sampleStrings))
      (.srvStringsWatcher
        { watcherCommon := newWatcherCommon (sampleContext "1" machineAgent),
          watcher := sampleStrings })
      rfl rfl rfl rfl).2.1⟩

/-- C29: `srvMigrationStatusWatcher.Next` makes no backend query when the channel is closed:
the log of calls is as before and the result is the empty status with the terminal error. On
a delivered signal the calls it adds to the log are the first `k` of the queries
`LatestMigration`, `Phase`, `APIHostPorts`, `ControllerConfig`, `TargetInfo`, for some `k`
from 1 to 5; these are five different queries, so each is made at most once, and a query is
made only if the steps before it succeeded. -/
theorem migration_queries_in_order (w : srvMigrationStatusWatcher) (s : World) :
    (w.watcher.Changes.1 = none →
      (w.Next s).2.2.calls = s.calls ∧
      (w.Next s).1 = ({}, some (terminalError w.watcher.Err))) ∧
    (w.watcher.Changes.1 = some () →
      ∃ k, 1 ≤ k ∧ k ≤ 5 ∧
        (w.Next s).2.2.calls = s.calls ++ migrationQueries.take k ∧
        (2 ≤ k → ∃ mig, w.st.LatestMigration = .ok mig) ∧
        (3 ≤ k → ∃ mig phase, w.st.LatestMigration = .ok mig ∧ mig.Phase = .ok phase) ∧
        (4 ≤ k → ∃ hostports, w.st.APIHostPorts = .ok hostports) ∧
        (5 ≤ k → ∃ cfg cert, w.st.ControllerConfig = .ok cfg ∧ cfg.CACert = some cert)) ∧
    migrationQueries.Nodup := by
  refine ⟨?_, ?_, by decide⟩
  · intro hsig
    obtain ⟨hc, _⟩ := Watcher.Changes_closed _ hsig
    simp only [srvMigrationStatusWatcher.Next, hc, Watcher.Err, terminalError]
    split <;> simp [*]
  · intro hsig
    obtain ⟨rest, _, hc⟩ := Watcher.Changes_delivered _ () hsig
    cases hm : w.st.LatestMigration with
    | error e =>
      refine ⟨1, by omega, by omega, ?_, by omega, by omega, by omega, by omega⟩
      by_cases hnf : IsNotFound (some e) = true
      · simp [srvMigrationStatusWatcher.Next, hc, hm, hnf, World.record, migrationQueries]
      · simp [srvMigrationStatusWatcher.Next, hc, hm, hnf, World.record, migrationQueries]
    | ok mig =>
      cases hp : mig.Phase with
      | error e =>
        refine ⟨2, by omega, by omega, ?_, fun _ => ⟨mig, rfl⟩, by omega, by omega, by omega⟩
        simp [srvMigrationStatusWatcher.Next, hc, hm, hp, World.record, migrationQueries]
      | ok phase =>
        cases hh : w.st.APIHostPorts with
        | error e =>
          refine ⟨3, by omega, by omega, ?_, fun _ => ⟨mig, rfl⟩,
            fun _ => ⟨mig, phase, rfl, hp⟩, by omega, by omega⟩
          simp [srvMigrationStatusWatcher.Next, hc, hm, hp, hh, World.record,
            migrationQueries, srvMigrationStatusWatcher.getLocalHostPorts]
        | ok hostports =>
          cases hcfg : w.st.ControllerConfig with
          | error e =>
            refine ⟨4, by omega, by omega, ?_, fun _ => ⟨mig, rfl⟩,
              fun _ => ⟨mig, phase, rfl, hp⟩, fun _ => ⟨hostports, rfl⟩, by omega⟩
            simp [srvMigrationStatusWatcher.Next, hc, hm, hp, hh, hcfg, World.record,
              migrationQueries, srvMigrationStatusWatcher.getLocalHostPorts,
              getControllerCACert]
          | ok cfg =>
            cases hcert : cfg.CACert with
            | none =>
              refine ⟨4, by omega, by omega, ?_, fun _ => ⟨mig, rfl⟩,
                fun _ => ⟨mig, phase, rfl, hp⟩, fun _ => ⟨hostports, rfl⟩, by omega⟩
              simp [srvMigrationStatusWatcher.Next, hc, hm, hp, hh, hcfg, hcert, World.record,
                migrationQueries, srvMigrationStatusWatcher.getLocalHostPorts,
                getControllerCACert]
            | some cert =>
              refine ⟨5, by omega, by omega, ?_, fun _ => ⟨mig, rfl⟩,
                fun _ => ⟨mig, phase, rfl, hp⟩, fun _ => ⟨hostports, rfl⟩,
                fun _ => ⟨cfg, cert, rfl, hcert⟩⟩
              cases ht : mig.TargetInfo <;>
                simp [srvMigrationStatusWatcher.Next, hc, hm, hp, hh, hcfg, hcert, ht,
                  World.record, migrationQueries,
                  srvMigrationStatusWatcher.getLocalHostPorts, getControllerCACert]

/-- C29, at concrete inputs: on a closed channel no call is recorded; with every query
succeeding the five queries are recorded once each, in order; with a migration whose phase
cannot be read only the first two are. -/
theorem migration_queries_in_order_witness :
    (srvMigrationStatusWatcher.Next
        { watcherCommon := newWatcherCommon (sampleContext "2" machineAgent),
          watcher := { pending := [], err := none }, st := sampleMigrationBackend }
        emptyWorld).2.2.calls = [] ∧
    ((sampleMigrationFacade sampleMigrationBackend).Next emptyWorld).2.2.calls =
        [Call.LatestMigration, Call.Phase, Call.APIHostPorts, Call.ControllerConfig,
         Call.TargetInfo] ∧
    ((sampleMigrationFacade phaseFailingBackend).Next emptyWorld).2.2.calls =
        [Call.LatestMigration, Call.Phase] :=
  ⟨((migration_queries_in_order
      { watcherCommon := newWatcherCommon (sampleContext "2" machineAgent),
        watcher := { pending := [], err := none }, st := sampleMigrationBackend }
      emptyWorld).1 rfl).1, by decide, by decide⟩

end Apiserver

namespace Storage

open Apiserver (Error)

/-! ### The storage command -/

theorem lookup_filter_ne {V : Type} (m : List (String × V)) (k id : String) (h : id ≠ k) :
    (m.filter (fun entry => entry.1 != k)).lookup id = m.lookup id := by
  induction m with
  | nil => rfl
  | cons e rest ih =>
    obtain ⟨k1, v1⟩ := e
    by_cases hk : k1 = k
    · subst hk
      have hne : (id == k1) = false := by simpa using h
      simp [List.filter_cons, List.lookup_cons, hne, ih]
    · have hk1 : (k1 != k) = true := by simpa using hk
      simp only [List.filter_cons, hk1, if_true, List.lookup_cons, ih]

theorem lookup_mapSet {V : Type} (m : List (String × V)) (k id : String) (v : V) :
    (mapSet m k v).lookup id = if id = k then some v else m.lookup id := by
  by_cases h : id = k
  · subst h
    simp [mapSet, List.lookup_cons]
  · have hne : (id == k) = false := by simpa using h
    simp only [mapSet, List.lookup_cons, hne, h, if_false]
    exact lookup_filter_ne m k id h

theorem units_ok_iff (deps : Deps) (atts : List (String × StorageAttachmentDetails)) :
    ∀ units : List (String × UnitStorageAttachment),
      (∃ r, createStorageInfo.units deps atts units = .ok r) ↔
        ∀ entry ∈ atts,
          (∃ tag, deps.ParseUnitTag entry.1 = .ok tag) ∧
          (entry.2.MachineTag ≠ "" →
            ∃ tag, deps.ParseMachineTag entry.2.MachineTag = .ok tag) := by
  induction atts with
  | nil =>
    intro units
    simp [createStorageInfo.units]
  | cons e rest ih =>
    intro units
    obtain ⟨u, a⟩ := e
    simp only [createStorageInfo.units, List.mem_cons, forall_eq_or_imp]
    cases hu : deps.ParseUnitTag u with
    | error err => simp
    | ok unitTag =>
      by_cases hm : a.MachineTag = ""
      · simp [hm, ih]
      · cases hp : deps.ParseMachineTag a.MachineTag with
        | error err => simp [hm, hp]
        | ok machineTag => simp [hm, hp, ih]

theorem createStorageInfo_ok_iff (deps : Deps) (details : StorageDetails) :
    (∃ r, createStorageInfo deps details = .ok r) ↔ tagsParse deps details := by
  unfold createStorageInfo tagsParse
  cases hs : deps.ParseStorageTag details.StorageTag with
  | error err => simp
  | ok storageTag =>
    cases hatt : details.Attachments with
    | nil => simp
    | cons e rest =>
      have h := units_ok_iff deps (e :: rest) []
      simp only [List.length_cons, gt_iff_lt, Nat.zero_lt_succ, if_true]
      rw [← h]
      cases createStorageInfo.units deps (e :: rest) [] with
      | error err => simp
      | ok r => simp

theorem createStorageInfo_tag (deps : Deps) (details : StorageDetails) (tag : Tag)
    (info : StorageInfo) (h : createStorageInfo deps details = .ok (tag, info)) :
    deps.ParseStorageTag details.StorageTag = .ok tag := by
  unfold createStorageInfo at h
  cases hs : deps.ParseStorageTag details.StorageTag with
  | error err => simp [hs] at h
  | ok storageTag =>
    simp only [hs] at h
    split at h
    · split at h
      · cases h
      · cases h
        rfl
    · cases h
      rfl

theorem lookup_isSome_iff {V : Type} (m : List (String × V)) (id : String) :
    (m.lookup id).isSome = true ↔ id ∈ m.map Prod.fst := by
  induction m with
  | nil => simp
  | cons e rest ih =>
    obtain ⟨k, v⟩ := e
    by_cases h : id = k
    · subst h
      simp [List.lookup_cons]
    · have hne : (id == k) = false := by simpa using h
      simp only [List.lookup_cons, hne, ih, List.map_cons, List.mem_cons, h, false_or]

theorem loop_ok (deps : Deps) (storages : List StorageDetails) :
    ∀ output : List (String × StorageInfo),
      (∀ details ∈ storages, tagsParse deps details) →
      ∃ out, formatStorageDetails.loop deps storages output = (some out, none) ∧
        (∀ id, out.lookup id =
          ((entries deps storages).reverse.lookup id).or (output.lookup id)) ∧
        (entries deps storages).length = storages.length := by
  induction storages with
  | nil =>
    intro output _
    exact ⟨output, rfl, by simp [entries], rfl⟩
  | cons d rest ih =>
    intro output hall
    obtain ⟨⟨tag, info⟩, hd⟩ :=
      (createStorageInfo_ok_iff deps d).mpr (hall d (List.mem_cons_self _ _))
    obtain ⟨out, hout, hlook, hlen⟩ := ih (mapSet output tag.Id info)
      (fun x hx => hall x (List.mem_cons_of_mem _ hx))
    have he : entries deps (d :: rest) = (tag.Id, info) :: entries deps rest := by
      simp [entries, List.filterMap_cons, hd]
    refine ⟨out, ?_, ?_, ?_⟩
    · simp only [formatStorageDetails.loop, hd]
      exact hout
    · intro id
      rw [hlook id, he, List.reverse_cons, List.lookup_append, lookup_mapSet]
      by_cases h : id = tag.Id
      · subst h
        cases (entries deps rest).reverse.lookup tag.Id <;> simp [List.lookup_cons]
      · have hne : (id == tag.Id) = false := by simpa using h
        cases (entries deps rest).reverse.lookup id <;> simp [List.lookup_cons, hne, h]
    · rw [he, List.length_cons, hlen, List.length_cons]

theorem loop_err (deps : Deps) (storages : List StorageDetails) :
    ∀ output : List (String × StorageInfo),
      (∃ details ∈ storages, ¬ tagsParse deps details) →
      ∃ err, formatStorageDetails.loop deps storages output = (none, some err) := by
  induction storages with
  | nil =>
    intro output h
    obtain ⟨d, hd, _⟩ := h
    cases hd
  | cons d rest ih =>
    intro output h
    cases hc : createStorageInfo deps d with
    | error err =>
      exact ⟨Error.Trace err, by simp only [formatStorageDetails.loop, hc]⟩
    | ok r =>
      obtain ⟨tag, info⟩ := r
      have hd : tagsParse deps d := (createStorageInfo_ok_iff deps d).mp ⟨_, hc⟩
      obtain ⟨x, hx, hnx⟩ := h
      have hx1 : x ∈ rest := by
        rcases List.mem_cons.mp hx with rfl | hx1
        · exact absurd hd hnx
        · exact hx1
      obtain ⟨err, herr⟩ := ih (mapSet output tag.Id info) ⟨x, hx1, hnx⟩
      exact ⟨err, by simp only [formatStorageDetails.loop, hc]; exact herr⟩

/-- C25: `formatStorageDetails` maps storage ids to storage details. On an empty input it
returns `(nil, nil)`. On a non-empty input in which every storage tag, every unit tag and
every machine tag that is not empty parses, it returns with no error a map whose keys are
exactly the ids of the storage tags of the inputs, each mapped to the `StorageInfo` that
`createStorageInfo` builds from the last input with that id. If some tag of some input does
not parse, it returns a nil map and an error. -/
theorem formatStorageDetails_maps_ids (deps : Deps) (storages : List StorageDetails) :
    formatStorageDetails deps [] = (none, none) ∧
    (storages ≠ [] → (∀ details ∈ storages, tagsParse deps details) →
      ∃ output, formatStorageDetails deps storages = (some output, none) ∧
        (∀ id, (output.lookup id).isSome = true ↔
          ∃ details ∈ storages, ∃ tag,
            deps.ParseStorageTag details.StorageTag = .ok tag ∧ tag.Id = id) ∧
        (∀ id, output.lookup id = (entries deps storages).reverse.lookup id) ∧
        (entries deps storages).length = storages.length) ∧
    ((∃ details ∈ storages, ¬ tagsParse deps details) →
      ∃ err, formatStorageDetails deps storages = (none, some err)) := by
  refine ⟨rfl, ?_, ?_⟩
  · intro hne hall
    obtain ⟨out, hout, hlook, hlen⟩ := loop_ok deps storages [] hall
    have hl : ∀ id, out.lookup id = (entries deps storages).reverse.lookup id := by
      intro id
      rw [hlook id]
      cases (entries deps storages).reverse.lookup id <;> simp
    have hfmt : formatStorageDetails deps storages = (some out, none) := by
      unfold formatStorageDetails
      have : storages.length ≠ 0 := by
        intro h0
        exact hne (List.length_eq_zero.mp h0)
      simp only [this, if_false]
      exact hout
    refine ⟨out, hfmt, ?_, hl, hlen⟩
    intro id
    rw [hl id, lookup_isSome_iff, List.map_reverse, List.mem_reverse]
    simp only [entries, List.mem_map, List.mem_filterMap]
    constructor
    · rintro ⟨⟨k, v⟩, ⟨d, hd, hk⟩, rfl⟩
      cases hc : createStorageInfo deps d with
      | error err => simp [hc] at hk
      | ok r =>
        obtain ⟨tag, info⟩ := r
        simp only [hc, Option.some.injEq, Prod.mk.injEq] at hk
        exact ⟨d, hd, tag, createStorageInfo_tag deps d tag info hc, hk.1⟩
    · rintro ⟨d, hd, tag, htag, rfl⟩
      obtain ⟨⟨tag1, info⟩, hc⟩ := (createStorageInfo_ok_iff deps d).mpr (hall d hd)
      have h1 := createStorageInfo_tag deps d tag1 info hc
      rw [htag] at h1
      cases h1
      exact ⟨(tag.Id, info), ⟨d, hd, by simp [hc]⟩, rfl⟩
  · intro h
    have hne : storages.length ≠ 0 := by
      obtain ⟨d, hd, _⟩ := h
      intro h0
      rw [List.length_eq_zero.mp h0] at hd
      cases hd
    obtain ⟨err, herr⟩ := loop_err deps storages [] h
    exact ⟨err, by unfold formatStorageDetails; simp only [hne, if_false]; exact herr⟩

/-- C25, at concrete inputs: of three inputs, the first and the third with the storage tag
`storage-data-0`, the map has the key `data-0` mapped to the info of the third input, and no
key `data-2`; with an input whose storage tag is `volume-0`, which is no storage tag, the map
is nil and there is an error. -/
theorem formatStorageDetails_maps_ids_witness :
    (∃ output,
      formatStorageDetails sampleDeps
          [sampleDetails "storage-data-0" "/srv/a", sampleDetails "storage-data-1" "/srv/b",
           sampleDetails "storage-data-0" "/srv/c"] = (some output, none) ∧
        output.lookup "data-0" =
          ((createStorageInfo sampleDeps (sampleDetails "storage-data-0" "/srv/c")).toOption.map
            Prod.snd) ∧
        output.lookup "data-2" = none) ∧
    (∃ err,
      formatStorageDetails sampleDeps
          [sampleDetails "storage-data-0" "/srv/a", sampleDetails "volume-0" "/srv/b"] =
        (none, some err)) := by
  constructor
  · have hall : ∀ details ∈ [sampleDetails "storage-data-0" "/srv/a",
        sampleDetails "storage-data-1" "/srv/b", sampleDetails "storage-data-0" "/srv/c"],
        tagsParse sampleDeps details := by
      intro details hd
      simp only [List.mem_cons, List.mem_singleton, List.not_mem_nil, or_false] at hd
      rcases hd with rfl | rfl | rfl <;>
        refine ⟨⟨_, rfl⟩, ?_⟩ <;>
        intro entry he <;>
        simp only [sampleDetails, List.mem_singleton] at he <;>
        subst he <;>
        exact ⟨⟨_, rfl⟩, fun _ => ⟨_, rfl⟩⟩
    obtain ⟨output, h1, _, h3, _⟩ :=
      (formatStorageDetails_maps_ids sampleDeps
        [sampleDetails "storage-data-0" "/srv/a", sampleDetails "storage-data-1" "/srv/b",
         sampleDetails "storage-data-0" "/srv/c"]).2.1 (by simp) hall
    exact ⟨output, h1, (h3 "data-0").trans (by decide), (h3 "data-2").trans (by decide)⟩
  · apply (formatStorageDetails_maps_ids sampleDeps
      [sampleDetails "storage-data-0" "/srv/a", sampleDetails "volume-0" "/srv/b"]).2.2
    refine ⟨sampleDetails "volume-0" "/srv/b", by simp, ?_⟩
    rintro ⟨⟨tag, htag⟩, _⟩
    cases htag

end Storage

namespace Rackspace

/-! ### The Rackspace provider -/

theorem Char_toUpper_toUpper (c : Char) : c.toUpper.toUpper = c.toUpper := by
  by_cases h : 97 ≤ c.toNat ∧ c.toNat ≤ 122
  · have h1 : c.toUpper = Char.ofNat (c.toNat - 32) := by
      simp [Char.toUpper, h]
    have h2 : (Char.ofNat (c.toNat - 32)).toNat = c.toNat - 32 := by
      obtain ⟨a, b⟩ := h
      generalize c.toNat = n at *
      interval_cases n <;> rfl
    have h3 : ¬ (97 ≤ (Char.ofNat (c.toNat - 32)).toNat ∧
        (Char.ofNat (c.toNat - 32)).toNat ≤ 122) := by
      rw [h2]
      omega
    rw [h1]
    simp only [Char.toUpper, ge_iff_le, h3, if_false]
  · have h1 : c.toUpper = c := by
      simp only [Char.toUpper, ge_iff_le, h, if_false]
    rw [h1, h1]

theorem asciiStrings_ToUpper_ToUpper (s : String) :
    asciiStrings.ToUpper (asciiStrings.ToUpper s) = asciiStrings.ToUpper s := by
  simp only [asciiStrings, List.map_map]
  congr 1
  apply List.map_congr_left
  intro c _
  exact Char_toUpper_toUpper c

/-- C26: `transformCloudSpec` puts the region in upper case and changes nothing else: for
every spec the region of the result is `strings.ToUpper` of the region given and the other
fields are those given. Applying it twice to a spec is applying it once exactly when
`strings.ToUpper` applied twice to the region is `strings.ToUpper` applied once; so
`transformCloudSpec` is idempotent, upper-casing an upper-cased string being the property of
the library function that changes nothing. `PrepareConfig` and `Open` call the embedded
provider with the arguments of the caller in which only the region of the cloud is changed,
to `strings.ToUpper` of it. -/
theorem transformCloudSpec_changes_region_only {Rest Other Prepared Opened : Type}
    (strings : Strings) (spec : CloudSpec Rest)
    (p : environProvider Rest Other Prepared Opened)
    (pargs : PrepareConfigParams Rest Other) (oargs : OpenParams Rest Other) :
    (transformCloudSpec strings spec).Region = strings.ToUpper spec.Region ∧
    (transformCloudSpec strings spec).rest = spec.rest ∧
    (transformCloudSpec strings (transformCloudSpec strings spec) =
        transformCloudSpec strings spec ↔
      strings.ToUpper (strings.ToUpper spec.Region) = strings.ToUpper spec.Region) ∧
    ((∀ region, strings.ToUpper (strings.ToUpper region) = strings.ToUpper region) →
      ∀ spec1 : CloudSpec Rest,
        transformCloudSpec strings (transformCloudSpec strings spec1) =
          transformCloudSpec strings spec1) ∧
    p.PrepareConfig strings pargs =
      p.EnvironProvider.PrepareConfig
        { Cloud := { Region := strings.ToUpper pargs.Cloud.Region, rest := pargs.Cloud.rest },
          other := pargs.other } ∧
    p.Open strings oargs =
      p.EnvironProvider.Open
        { Cloud := { Region := strings.ToUpper oargs.Cloud.Region, rest := oargs.Cloud.rest },
          other := oargs.other } := by
  refine ⟨rfl, rfl, ?_, ?_, rfl, rfl⟩
  · constructor
    · intro h
      exact congrArg CloudSpec.Region h
    · intro h
      simp only [transformCloudSpec, h]
  · intro h spec1
    simp only [transformCloudSpec, h]

/-- C26, at a concrete input, with the upper-casing of the letters `a` to `z`: the region
`dfw` becomes `DFW`, the rest of the spec is kept, transforming twice is transforming once,
and the embedded provider is given `DFW`. -/
theorem transformCloudSpec_changes_region_only_witness :
    (transformCloudSpec asciiStrings
        ({ Region := "dfw", rest := "rackspace" } : CloudSpec String)).Region = "DFW" ∧
    (transformCloudSpec asciiStrings
        ({ Region := "dfw", rest := "rackspace" } : CloudSpec String)).rest = "rackspace" ∧
    transformCloudSpec asciiStrings
        (transformCloudSpec asciiStrings
          ({ Region := "dfw", rest := "rackspace" } : CloudSpec String)) =
      transformCloudSpec asciiStrings
        ({ Region := "dfw", rest := "rackspace" } : CloudSpec String) ∧
    echoProvider.PrepareConfig asciiStrings
        { Cloud := { Region := "dfw", rest := "rackspace" }, other := "config" } = "DFW" :=
  have h := transformCloudSpec_changes_region_only asciiStrings
    ({ Region := "dfw", rest := "rackspace" } : CloudSpec String) echoProvider
    { Cloud := { Region := "dfw", rest := "rackspace" }, other := "config" }
    { Cloud := { Region := "dfw", rest := "rackspace" }, other := "config" }
  ⟨h.1.trans (by decide), h.2.1, h.2.2.2.1 asciiStrings_ToUpper_ToUpper _,
   h.2.2.2.2.1.trans (by decide)⟩

end Rackspace

namespace Lxd

open Apiserver (Error IsNotImplemented)

/-! ### The LXD instance -/

/-- C27, the code at the failing input: the raw client reports the ports 80 and then 22, both
`tcp`, with no error; `Ports` returns them in that order, which is not the order of
`SortPorts` (22 comes before 80 there). -/
theorem ports_are_returned_as_reported :
    (sampleInstance "Running").Ports "0" =
        ([{ FromPort := 80, ToPort := 80, Protocol := "tcp" },
          { FromPort := 22, ToPort := 22, Protocol := "tcp" }], none) ∧
    inSortPortsOrder ((sampleInstance "Running").Ports "0").1 = false ∧
    inSortPortsOrder [{ FromPort := 22, ToPort := 22, Protocol := "tcp" },
                      { FromPort := 80, ToPort := 80, Protocol := "tcp" }] = true := by
  decide

/-- C30: `environInstance.Status` is a function of the raw status string `r` alone: the
message returned is `r`; the status returned is `Allocating` if `r` is `StatusStarting` or
`StatusStarted`, `Running` if `r` is `StatusRunning`, and `Empty` for every other `r`; it is
never `Pending`. The names `StatusStarting`, `StatusStarted` and `StatusRunning` are different
constants, as the cases of one switch have to be. -/
theorem status_is_function_of_raw_status (lxdclient : Lxdclient) (inst : environInstance)
    (h1 : lxdclient.StatusRunning ≠ lxdclient.StatusStarting)
    (h2 : lxdclient.StatusRunning ≠ lxdclient.StatusStarted) :
    (inst.Status lxdclient).Message = inst.raw.Status ∧
    (inst.raw.Status = lxdclient.StatusStarting ∨ inst.raw.Status = lxdclient.StatusStarted →
      (inst.Status lxdclient).Status = Status.Allocating) ∧
    (inst.raw.Status = lxdclient.StatusRunning →
      (inst.Status lxdclient).Status = Status.Running) ∧
    (inst.raw.Status ≠ lxdclient.StatusStarting → inst.raw.Status ≠ lxdclient.StatusStarted →
      inst.raw.Status ≠ lxdclient.StatusRunning →
      (inst.Status lxdclient).Status = Status.Empty) ∧
    (inst.Status lxdclient).Status ≠ Status.Pending ∧
    (∀ other : environInstance, other.raw.Status = inst.raw.Status →
      other.Status lxdclient = inst.Status lxdclient) := by
  refine ⟨rfl, ?_, ?_, ?_, ?_, ?_⟩
  · intro h
    simp only [environInstance.Status, h, if_true]
  · intro h
    have hn : ¬ (lxdclient.StatusRunning = lxdclient.StatusStarting ∨
        lxdclient.StatusRunning = lxdclient.StatusStarted) := fun hh => hh.elim h1 h2
    simp only [environInstance.Status, h, hn, if_true, if_false]
  · intro ha hb hc
    have hn : ¬ (inst.raw.Status = lxdclient.StatusStarting ∨
        inst.raw.Status = lxdclient.StatusStarted) := fun hh => hh.elim ha hb
    simp only [environInstance.Status, hn, hc, if_false]
    split <;> rfl
  · simp only [environInstance.Status]
    split
    · simp
    · split
      · simp
      · split <;> simp
  · intro other ho
    simp only [environInstance.Status, ho]

/-- C30, at concrete inputs, with the status names as LXD spells them: `Starting` gives
`Allocating`, `Running` gives `Running`, `Frozen` and an unknown string give `Empty`, and the
message is the raw string. -/
theorem status_is_function_of_raw_status_witness :
    (sampleInstance "Starting").Status sampleNames =
        { Status := .Allocating, Message := "Starting" } ∧
    ((sampleInstance "Running").Status sampleNames).Status = .Running ∧
    ((sampleInstance "Frozen").Status sampleNames).Status = .Empty ∧
    ((sampleInstance "Aborting").Status sampleNames).Status = .Empty ∧
    ((sampleInstance "Aborting").Status sampleNames).Message = "Aborting" :=
  have h := fun r => status_is_function_of_raw_status sampleNames (sampleInstance r)
    (by decide) (by decide)
  ⟨by decide, (h "Running").2.2.1 rfl,
   (h "Frozen").2.2.2.1 (by decide) (by decide) (by decide),
   (h "Aborting").2.2.2.1 (by decide) (by decide) (by decide), (h "Aborting").1⟩

end Lxd
